import Mathlib

/-!
# Verification of the FoE-Buildings-Database core pipeline

A shallow embedding, over exact rationals, of the data-transformation and
scoring core of the buildings-analytics application:

* `src/calculations.py` — the direct weighted-sum scoring engine
  (`apply_boosts_to_base_metrics`, `calculate_direct_weighted_efficiency`)
  and the legacy wrapper (`calculate_weighted_efficiency`);
* `src/data_loader.py` — the raw asset parser (`BuildingAnalyzer`);
* `src/advanced_filters.py` — the filter engine
  (`AdvancedFilterManager._apply_filters`).

Python `float` arithmetic is modelled by `ℚ` (exact arithmetic; the claims
under study do not depend on binary floating-point artifacts).  Python
exceptions that can escape a function are modelled with `Except Unit`;
`Except.error ()` means "a Python exception propagates out of this call".
-/

set_option linter.unusedVariables false
set_option maxRecDepth 8192

namespace FoE

/- Batteries marks the `Rat` arithmetic operations `@[irreducible]`; concrete
evaluations of the embedded pipeline (by `decide`/`rfl`) need them to unfold
during elaboration, so restore the default reducibility inside this
development.  (The kernel itself never honors `irreducible`, so this changes
nothing about what the final proofs depend on.) -/
attribute [local semireducible] Rat.add Rat.mul Rat.inv Rat.sub

/-! ## Python numeric primitives -/

/-- Truncation toward zero, as Python's `int(...)` applied to a float. -/
def pyTrunc (q : ℚ) : ℤ := if 0 ≤ q then ⌊q⌋ else -(⌊-q⌋)

/-- Python 3 `round()` to an integer: round half to even (banker's rounding),
modelled on exact rationals. -/
def pyRoundInt (q : ℚ) : ℤ :=
  let n := ⌊q⌋
  if q - n < 1/2 then n
  else if 1/2 < q - n then n + 1
  else if n % 2 = 0 then n else n + 1

/-- Python `round(x, 1)`. -/
def round1 (q : ℚ) : ℚ := (pyRoundInt (q * 10) : ℚ) / 10

/-- Python `round(x, 2)`. -/
def round2 (q : ℚ) : ℚ := (pyRoundInt (q * 100) : ℚ) / 100

/-! ## Numeric rows and dicts

`calculate_direct_weighted_efficiency` reads and writes its DataFrame rows
purely as string-keyed numeric mappings (`row.get(col, default)`,
`row[col] = v`), so a row is embedded as an association list from column
name to `ℚ`.  User weights / context / boosts dicts have the same shape. -/

/-- A DataFrame row (or a Python dict) with string keys and numeric values. -/
abbrev NRow := List (String × ℚ)

/-- First value bound to `k`, like a dict lookup (dicts have unique keys). -/
def nfind (r : NRow) (k : String) : Option ℚ :=
  match r with
  | [] => none
  | (k', v) :: rest => if k' = k then some v else nfind rest k

/-- Python `d.get(k, default)`. -/
def nget (r : NRow) (k : String) (d : ℚ) : ℚ := (nfind r k).getD d

/-- Python `k in d`. -/
def nmem (r : NRow) (k : String) : Bool := (nfind r k).isSome

/-- Python `d[k] = v`: overwrite the existing binding in place, or append a
new binding at the end (Python dicts preserve insertion order). -/
def nset (r : NRow) (k : String) (v : ℚ) : NRow :=
  if nmem r k then r.map (fun p => if p.1 = k then (k, v) else p)
  else r ++ [(k, v)]

/-! ## Constants from `src/config.py` -/

/-- `config.ADDITIVE_METRICS`. -/
def ADDITIVE_METRICS : List String :=
  ["coins", "supplies", "medals", "forge_points", "forgepoint_package", "goods",
   "next_age_goods", "prev_age_goods", "special_goods", "guild_goods",
   "Red Attack", "Red Defense", "Blue Attack", "Blue Defense",
   "Red GBG Attack", "Red GBG Defense", "Blue GBG Attack", "Blue GBG Defense",
   "Red GE Attack", "Red GE Defense", "Blue GE Attack", "Blue GE Defense",
   "Red QI Attack", "Red QI Defense", "Blue QI Attack", "Blue QI Defense",
   "QI Coin at start", "QI Supplies at start", "QI Goods at start",
   "QI Units at start", "QA per hour"]

/-- `config.WEIGHTABLE_COLUMNS`. -/
def WEIGHTABLE_COLUMNS : List String :=
  ["forge_points", "forgepoint_package",
   "goods", "next_age_goods", "prev_age_goods", "special_goods", "guild_goods",
   "rogues", "fast_units", "heavy_units", "ranged_units", "artillery_units",
   "light_units", "next_age_fast_units", "next_age_heavy_units",
   "next_age_ranged_units", "next_age_artillery_units", "next_age_light_units",
   "Population",
   "Red Attack", "Red Defense", "Blue Attack", "Blue Defense",
   "Red GBG Attack", "Red GBG Defense", "Blue GBG Attack", "Blue GBG Defense",
   "Red GE Attack", "Red GE Defense", "Blue GE Attack", "Blue GE Defense",
   "Red QI Attack", "Red QI Defense", "Blue QI Attack", "Blue QI Defense",
   "QI Coin %", "QI Coin at start", "QI Supplies %", "QI Supplies at start",
   "QI Goods at start", "QI Units at start", "QA per hour"]

/-- `config.ERAS_DICT` (raw era key → localized display name). -/
def ERAS_DICT : List (String × String) :=
  [("SpaceAgeSpaceHub", "Space Age: Space Hub"),
   ("SpaceAgeTitan", "Space Age: Titan"),
   ("SpaceAgeJupiterMoon", "Space Age: Jupiter Moon"),
   ("SpaceAgeVenus", "Space Age: Venus"),
   ("SpaceAgeAsteroidBelt", "Space Age: Asteroid Belt"),
   ("SpaceAgeMars", "Space Age: Mars"),
   ("VirtualFuture", "Virtual Future"),
   ("OceanicFuture", "Oceanic Future"),
   ("ArcticFuture", "Arctic Future"),
   ("FutureEra", "Future Era"),
   ("TomorrowEra", "Tomorrow Era"),
   ("ContemporaryEra", "Contemporary Era"),
   ("PostModernEra", "Post-Modern Era"),
   ("ModernEra", "Modern Era"),
   ("ProgressiveEra", "Progressive Era"),
   ("IndustrialAge", "Industrial Age"),
   ("ColonialAge", "Colonial Age"),
   ("LateMiddleAge", "Late Middle Age"),
   ("HighMiddleAge", "High Middle Age"),
   ("EarlyMiddleAge", "Early Middle Age"),
   ("IronAge", "Iron Age"),
   ("BronzeAge", "Bronze Age")]

/-- The defaults of `config.USER_CONTEXT_FIELDS` (each field's `default` is 0),
as built by the legacy wrapper when `user_context is None`. -/
def USER_CONTEXT_default : NRow :=
  [("fp_daily_production", 0), ("goods_current_production", 0),
   ("goods_previous_production", 0), ("goods_next_production", 0),
   ("guild_goods_production", 0), ("special_goods_production", 0)]

/-! ## `src/calculations.py`: direct weighted-sum scoring -/

/-- `apply_boosts_to_base_metrics(building_row, user_context, user_boosts)`.

Step 1 applies the combined (user + building) boost percentage to the
building's own base production values; step 2 de-boosts the user's context
production to a "true base"; step 3 adds, for each boost the building grants
(`config.BOOST_TO_BASE_MAPPING`), its marginal contribution computed from the
true base.  `pd.Series.copy`-then-mutate is embedded as functional update. -/
def apply_boosts_to_base_metrics (building_row : NRow)
    (user_context user_boosts : NRow) : NRow :=
  -- original base production values
  let orig_fp := nget building_row "forge_points" 0
  let orig_goods := nget building_row "goods" 0
  let orig_prev := nget building_row "prev_age_goods" 0
  let orig_next := nget building_row "next_age_goods" 0
  let orig_guild := nget building_row "guild_goods" 0
  let orig_special := nget building_row "special_goods" 0
  -- combined boost percentages (user city boost + building self-boost)
  let combined_fp := nget user_boosts "current_fp_boost" 0 + nget building_row "FP boost" 0
  let combined_goods := nget user_boosts "current_goods_boost" 0 + nget building_row "Goods Boost" 0
  let combined_guild := nget user_boosts "current_guild_goods_boost" 0
      + nget building_row "Guild Goods Production %" 0
  let combined_special := nget user_boosts "current_special_goods_boost" 0
      + nget building_row "Special Goods Production %" 0
  -- STEP 1: apply combined boosts to the original base values
  let e := building_row
  let e := if combined_fp > 0 && nmem e "forge_points" then
      nset e "forge_points" (orig_fp * (1 + combined_fp / 100)) else e
  let e := if combined_goods > 0 then
      (let e := if nmem e "goods" then
          nset e "goods" (orig_goods * (1 + combined_goods / 100)) else e
       let e := if nmem e "prev_age_goods" then
          nset e "prev_age_goods" (orig_prev * (1 + combined_goods / 100)) else e
       if nmem e "next_age_goods" then
          nset e "next_age_goods" (orig_next * (1 + combined_goods / 100)) else e)
    else e
  let e := if combined_guild > 0 && nmem e "guild_goods" then
      nset e "guild_goods" (orig_guild * (1 + combined_guild / 100)) else e
  let e := if combined_special > 0 && nmem e "special_goods" then
      nset e "special_goods" (orig_special * (1 + combined_special / 100)) else e
  -- STEP 2: true base production values from the user's boosted production
  let true_base := fun (boost_key ctx_key : String) =>
    if nmem user_boosts boost_key && nget user_boosts boost_key 0 > 0 then
      nget user_context ctx_key 0 / (1 + nget user_boosts boost_key 0 / 100)
    else nget user_context ctx_key 0
  let tb_fp := true_base "current_fp_boost" "fp_daily_production"
  let tb_goods_cur := true_base "current_goods_boost" "goods_current_production"
  let tb_goods_prev := true_base "current_goods_boost" "goods_previous_production"
  let tb_goods_next := true_base "current_goods_boost" "goods_next_production"
  let tb_guild := true_base "current_guild_goods_boost" "guild_goods_production"
  let tb_special := true_base "current_special_goods_boost" "special_goods_production"
  -- STEP 3: building-granted boosts applied to the (de-boosted) user context,
  -- iterating config.BOOST_TO_BASE_MAPPING in insertion order.
  -- (`context_key in true_base_context` is always true: step 2 sets every key.)
  let e := if nmem building_row "FP boost" && nget building_row "FP boost" 0 > 0 then
      nset e "forge_points"
        (nget e "forge_points" 0 + nget building_row "FP boost" 0 * tb_fp / 100)
    else e
  let e := if nmem building_row "Goods Boost" && nget building_row "Goods Boost" 0 > 0 then
      (let pct := nget building_row "Goods Boost" 0
       let e := if tb_goods_cur > 0 then
          nset e "goods" (nget e "goods" 0 + pct * tb_goods_cur / 100) else e
       let e := if tb_goods_prev > 0 then
          nset e "prev_age_goods" (nget e "prev_age_goods" 0 + pct * tb_goods_prev / 100) else e
       if tb_goods_next > 0 then
          nset e "next_age_goods" (nget e "next_age_goods" 0 + pct * tb_goods_next / 100) else e)
    else e
  let e := if nmem building_row "Guild Goods Production %"
      && nget building_row "Guild Goods Production %" 0 > 0 then
      nset e "guild_goods"
        (nget e "guild_goods" 0 + nget building_row "Guild Goods Production %" 0 * tb_guild / 100)
    else e
  let e := if nmem building_row "Special Goods Production %"
      && nget building_row "Special Goods Production %" 0 > 0 then
      nset e "special_goods"
        (nget e "special_goods" 0
          + nget building_row "Special Goods Production %" 0 * tb_special / 100)
    else e
  e

/-- The per-row body of `calculate_direct_weighted_efficiency`'s loop:
boost-enhance the row, accumulate `weight * value` over `ADDITIVE_METRICS`,
then write the rounded `Total Score` and `Weighted Efficiency` columns.
(`pd.notna` is always true in this exact-arithmetic model.) -/
def scoreRow (user_weights user_context user_boosts : NRow) (building_row : NRow) : NRow :=
  let enhanced_row := apply_boosts_to_base_metrics building_row user_context user_boosts
  let total_score := ADDITIVE_METRICS.foldl (fun acc metric =>
    if nmem enhanced_row metric && nmem user_weights metric then
      (let weight := nget user_weights metric 0
       if weight > 0 then acc + nget enhanced_row metric 0 * weight else acc)
    else acc) 0
  let r1 := nset building_row "Total Score" (round1 total_score)
  let building_size := nget building_row "Nbr of squares (Avg)" 1
  if building_size > 0 then
    nset r1 "Weighted Efficiency" (round1 (total_score / building_size))
  else
    nset r1 "Weighted Efficiency" 0

/-- `calculate_direct_weighted_efficiency(df, user_weights, user_context,
user_boosts=None)`.  An empty DataFrame is returned as-is (without the score
columns); otherwise both score columns are initialized to 0, and if no weight
is positive the per-row loop is skipped entirely. -/
def calculate_direct_weighted_efficiency (df : List NRow)
    (user_weights user_context : NRow) (user_boosts : Option NRow) : List NRow :=
  if df.isEmpty then df
  else
    let ub := user_boosts.getD []
    let df1 := df.map (fun r => nset (nset r "Total Score" 0) "Weighted Efficiency" 0)
    let any_weight_set := user_weights.any (fun p => p.2 > 0)
    if !any_weight_set then df1
    else df1.map (scoreRow user_weights user_context ub)

/-- `calculate_weighted_efficiency(df, user_weights, era_stats_df, df_original,
selected_translated_era, lang_code, user_context=None, user_boosts=None)`:
the legacy wrapper.  When `user_context is None` it is rebuilt from
`config.USER_CONTEXT_FIELDS` defaults; when `user_boosts is None` the wrapper
executes `from config import USER_BOOST_FIELDS`, but `src/config.py` defines
no such name, so that call raises `ImportError` (modelled as `.error ()`).
Otherwise it delegates to `calculate_direct_weighted_efficiency`. -/
def calculate_weighted_efficiency (df : List NRow) (user_weights : NRow)
    (era_stats_df : List (String × List (String × ℚ × ℚ))) (df_original : List NRow)
    (selected_translated_era lang_code : String)
    (user_context user_boosts : Option NRow) : Except Unit (List NRow) :=
  let ctx := user_context.getD USER_CONTEXT_default
  match user_boosts with
  | none => .error ()
  | some ub => .ok (calculate_direct_weighted_efficiency df user_weights ctx (some ub))

/-- Modelled from the spec (§4.4b), for comparison with the source's legacy
entry point in the refinement claim: the min-max normalized legacy scoring
mode.  The raw era key is resolved by reverse lookup of the localized display
name in `ERAS_DICT` (soft failure: uniform `-1` efficiency sentinel); each
weightable metric with non-zero weight is normalized to `[0,1]` via the era's
`{min,max}`; weighted sums are re-normalized across all rows to `[0,1000]`
(all equal → 0); efficiency is `round(total / max(squares_avg, 1), 1)`. -/
def spec_minmax_weighted_efficiency (df : List NRow) (user_weights : NRow)
    (era_stats : List (String × List (String × ℚ × ℚ)))
    (selected_translated_era : String) : List NRow :=
  match ERAS_DICT.find? (fun p => p.2 = selected_translated_era) with
  | none => df.map (fun r => nset (nset r "Total Score" 0) "Weighted Efficiency" (-1))
  | some (era_key, _) =>
    let stats := ((era_stats.find? (fun p => p.1 = era_key)).map Prod.snd).getD []
    let normalized := fun (v mn mx : ℚ) =>
      if mn = mx then (if mx > 0 then (if v > 0 then (1:ℚ) else 0) else 0)
      else max 0 (min 1 ((v - mn) / (mx - mn)))
    let raw := fun (r : NRow) =>
      WEIGHTABLE_COLUMNS.foldl (fun acc m =>
        let w := nget user_weights m 0
        if w ≠ 0 then
          match stats.find? (fun p => p.1 = m) with
          | some (_, mn, mx) => acc + w * normalized (nget r m 0) mn mx
          | none => acc
        else acc) 0
    let raws := df.map raw
    let mn : ℚ := raws.foldl min (raws.headD 0)
    let mx : ℚ := raws.foldl max (raws.headD 0)
    df.map (fun r =>
      let t := if mn = mx then 0 else (raw r - mn) / (mx - mn) * 1000
      nset (nset r "Total Score" t) "Weighted Efficiency"
        (round1 (t / max (nget r "Nbr of squares (Avg)" 1) 1)))

/-! ## JSON values with Python semantics

`src/data_loader.py` walks raw `json.load` output.  `J` is the JSON value
type; the helpers below model the exact Python operations the parser uses
(`dict.get`, `in`, truthiness, `float(...)`, indexing, string methods).
Operations that raise in Python (`.get` on a non-dict, `in` on a number,
arithmetic on a non-number, indexing an empty list, a zero divisor) are
modelled in `Except Unit` with `.error ()` standing for "an exception
propagates". -/

/-- A parsed JSON value (plus Python `None`/`bool`, which `json.load` emits). -/
inductive J where
  | null
  | bool (b : Bool)
  | num (q : ℚ)
  | str (s : String)
  | arr (xs : List J)
  | obj (kvs : List (String × J))

/-- Exception-capable Python computation. -/
abbrev Py (α : Type) := Except Unit α

/-- Lookup in an insertion-ordered dict (keys are unique in `json.load` output). -/
def alook {α : Type} (kvs : List (String × α)) (k : String) : Option α :=
  match kvs with
  | [] => none
  | (k', v) :: rest => if k' = k then some v else alook rest k

/-- Python truthiness of a JSON value. -/
def J.truthy : J → Bool
  | .null => false
  | .bool b => b
  | .num q => q != 0
  | .str s => s ≠ ""
  | .arr xs => !xs.isEmpty
  | .obj kvs => !kvs.isEmpty

/-- Python `x == "s"` for a JSON value against a string literal. -/
def J.eqStr : J → String → Bool
  | .str a, b => a == b
  | _, _ => false

/-- Python `x.get(k, d)`: `AttributeError` unless `x` is a dict. -/
def J.getE (j : J) (k : String) (d : J) : Py J :=
  match j with
  | .obj kvs => .ok ((alook kvs k).getD d)
  | _ => .error ()

/-- Python `x.get(k)` (default `None`). -/
def J.getN (j : J) (k : String) : Py J := j.getE k .null

/-- Python `x[0]`: first element of a list (or first character of a string);
`IndexError`/`TypeError` otherwise. -/
def pyIndex0E : J → Py J
  | .arr (x :: _) => .ok x
  | .arr [] => .error ()
  | .str s => match s.toList with
    | c :: _ => .ok (.str (String.mk [c]))
    | [] => .error ()
  | _ => .error ()

/-- Numeric coercion used wherever the Python code does arithmetic on (or
applies `float()` to) a JSON value.  Python raises `TypeError`/`ValueError`
on non-numeric operands; `float("123")`-style string parsing is not reached
by the parser's inputs of interest and is modelled as an error as well. -/
def pyNumE : J → Py ℚ
  | .num q => .ok q
  | .bool b => .ok (if b then 1 else 0)
  | _ => .error ()

/-- A JSON value that must be a Python `str` (string-method receivers). -/
def pyStrE : J → Py String
  | .str s => .ok s
  | _ => .error ()

/-- Python `a / b` with `ZeroDivisionError`. -/
def pyDivE (a b : ℚ) : Py ℚ := if b = 0 then .error () else .ok (a / b)

/-- Does `hay` start with `pat` (character lists)? -/
def startsL : List Char → List Char → Bool
  | [], _ => true
  | _ :: _, [] => false
  | p :: ps, h :: hs => p == h && startsL ps hs

/-- Is `pat` a contiguous substring of the character list? -/
def hasSubL (pat : List Char) : List Char → Bool
  | [] => pat.isEmpty
  | h :: hs => startsL pat (h :: hs) || hasSubL pat hs

/-- Python `pat in s` for strings. -/
def pyInStr (pat s : String) : Bool := hasSubL pat.toList s.toList

/-- Python `s.startswith(p)`. -/
def pyStartsWith (s p : String) : Bool := startsL p.toList s.toList

/-- Python `k in x` for a string `k`: key test on dicts, membership on lists,
substring test on strings; `TypeError` otherwise. -/
def pyInJE (k : String) : J → Py Bool
  | .obj kvs => .ok (alook kvs k).isSome
  | .arr xs => .ok (xs.any (fun j => j.eqStr k))
  | .str s => .ok (pyInStr k s)
  | _ => .error ()

/-- Python `str(x)` / f-string interpolation of a JSON value.  Integral
numbers print as Python ints do; the claims never inspect the rendering of
non-integral numbers or containers, which is abbreviated here. -/
def J.pystr : J → String
  | .null => "None"
  | .bool b => if b then "True" else "False"
  | .num q => if q.den = 1 then toString q.num else toString q
  | .str s => s
  | .arr _ => "[...]"
  | .obj _ => "\x7b...\x7d"

/-- Python `s.capitalize()`: first character uppercased, the rest lowercased. -/
def pyCapitalize (s : String) : String :=
  match s.toList with
  | [] => ""
  | c :: rest => String.mk (c.toUpper :: rest.map Char.toLower)

/-- Python `f"{v:.2f}"` for the non-negative unit counts (correct decimal
rounding modelled like `round(v, 2)`). -/
def fmt2 (q : ℚ) : String :=
  let m := pyRoundInt (q * 100)
  let whole := m / 100
  let r := (m % 100).toNat
  toString whole ++ "." ++ (if r < 10 then "0" else "") ++ toString r

/-- Lexicographic comparison of strings by character code (Python `str <`). -/
def chLe : List Char → List Char → Bool
  | [], _ => true
  | _ :: _, [] => false
  | a :: as, b :: bs => if a == b then chLe as bs else decide (a.val < b.val)

/-- Insert into a `chLe`-sorted list. -/
def insSorted (x : String) : List String → List String
  | [] => [x]
  | y :: ys => if chLe x.toList y.toList then x :: y :: ys else y :: insSorted x ys

/-- Insertion sort by `chLe` (Python's `sorted`; on the deduplicated lists
below any comparison sort agrees with it). -/
def pySort : List String → List String
  | [] => []
  | x :: xs => insSorted x (pySort xs)

/-- Python `sorted(list(set(xs)))` for a list of strings. -/
def pySortedDedup (xs : List String) : List String := pySort xs.eraseDups

/-- Python `s.replace(pat, rep)` over character lists, with the remaining
input length as structural fuel (non-overlapping, left to right; the source
only calls it with the non-empty pattern `"NextEra"`). -/
def replFuel (pat rep : List Char) : Nat → List Char → List Char
  | _, [] => []
  | 0, l => l
  | fuel + 1, c :: rest =>
    if !pat.isEmpty && startsL pat (c :: rest) then
      rep ++ replFuel pat rep fuel (List.drop (pat.length - 1) rest)
    else c :: replFuel pat rep fuel rest

/-- Python `s.replace(pat, rep)`. -/
def pyReplace (s pat rep : String) : String :=
  String.mk (replFuel pat.toList rep.toList s.toList.length s.toList)

/-! ## `src/data_loader.py`: the raw asset parser -/

/-- `BuildingAnalyzer._calculate_size_data(components)`: returns
`(width, height, size_string, total_squares, needs_road)`. -/
def calculate_size_data (components : J) : Py (ℚ × ℚ × String × ℚ × Bool) := do
  let allAge ← components.getE "AllAge" (.obj [])
  let placement ← allAge.getE "placement" (.obj [])
  let placement_size ← placement.getE "size" (.obj [])
  let heightJ ← placement_size.getE "y" (.num 0)
  let widthJ ← placement_size.getE "x" (.num 0)
  let size_string := heightJ.pystr ++ "x" ++ widthJ.pystr
  let allAge2 ← components.getE "AllAge" (.obj [])
  let needs_road ← pyInJE "streetConnectionRequirement" allAge2
  let height ← pyNumE heightJ
  let width ← pyNumE widthJ
  let total_squares := height * width
  let total_squares := if needs_road then total_squares + min width height / 2 else total_squares
  pure (width, height, size_string, total_squares, needs_road)

/-- `BuildingAnalyzer._check_limitations(components)`. -/
def check_limitations (components : J) : Py String := do
  let allAge ← components.getE "AllAge" (.obj [])
  let limited_comp ← allAge.getN "limited"
  if !limited_comp.truthy then pure "No"
  else do
    let limited_config ← limited_comp.getE "config" (.obj [])
    let hasExpire ← pyInJE "expireTime" limited_config
    if hasExpire then do
      let et ← limited_config.getN "expireTime"
      let etq ← pyNumE et
      let days := pyTrunc (etq / 86400)
      pure s!"Yes - {days} days"
    else do
      let hasColl ← pyInJE "collectionAmount" limited_config
      if hasColl then do
        let collections ← limited_config.getN "collectionAmount"
        let cs := collections.pystr
        pure s!"Yes - {cs} collections"
      else pure "Yes - Other"

/-- `BuildingAnalyzer._get_ally_room(components)`. -/
def get_ally_room (components : J) : Py String := do
  let allAge ← components.getE "AllAge" (.obj [])
  let ally_comp ← allAge.getN "ally"
  if !ally_comp.truthy then pure "No"
  else do
    let rooms ← ally_comp.getE "rooms" (.arr [.obj []])
    let room ← pyIndex0E rooms
    let at0 ← room.getE "allyType" (.str "Unknown")
    let ats ← pyStrE at0
    let ally_type := pyCapitalize ats
    let hasRarity ← pyInJE "rarity" room
    if hasRarity then do
      let rarityObj ← room.getE "rarity" (.obj [])
      let rv ← rarityObj.getE "value" (.str "Unknown")
      let rs ← pyStrE rv
      let rarity := pyCapitalize rs
      pure s!"{ally_type} - {rarity}"
    else pure s!"{ally_type} - Any rarity"

/-- Python `x != 0` (used for the "non-zero value wins" merge tests; note that
in Python any non-numeric value, including `None` and strings, is `!= 0`). -/
def pyNeZero : J → Bool
  | .num q => q != 0
  | .bool b => b
  | _ => true

/-- `BuildingAnalyzer._get_pop_happiness(components, era_key)`: combines the
era-specific and the shared `'AllAge'` component, in that order, keeping a
value whenever it is non-zero (so a later non-zero value overwrites an
earlier one). -/
def get_pop_happiness (components : J) (era_key : String) : Py (J × J) := do
  let step := fun (st : J × J) (component_key : String) => do
    let (pop, happiness) := st
    let component_data ← components.getE component_key (.obj [])
    if !component_data.truthy then pure (pop, happiness)
    else do
      let static_resources ← component_data.getE "staticResources" (.obj [])
      let pop ← (match static_resources with
        | .obj _ => do
          let resources ← static_resources.getE "resources" (.obj [])
          (match resources with
           | .obj _ => do
             let resources_data ← resources.getE "resources" (.obj [])
             (match resources_data with
              | .obj _ => do
                let current_pop ← resources_data.getE "population" (.num 0)
                pure (if pyNeZero current_pop then current_pop else pop)
              | _ => pure pop)
           | _ => pure pop)
        | _ => pure pop)
      let happiness_data ← component_data.getE "happiness" (.obj [])
      let happiness ← (match happiness_data with
        | .obj _ => do
          let current_happiness ← happiness_data.getE "provided" (.num 0)
          pure (if pyNeZero current_happiness then current_happiness else happiness)
        | _ => pure happiness)
      pure (pop, happiness)
  let st ← step (.num 0, .num 0) era_key
  step st "AllAge"

/-! ### `_get_production_data` -/

/-- The `units` / `next_age_units` dicts (initialized in this key order). -/
structure Units where
  Fast : ℚ := 0
  Heavy : ℚ := 0
  Light : ℚ := 0
  Ranged : ℚ := 0
  Artillery : ℚ := 0
deriving DecidableEq, Repr

/-- `units[name] += v`. -/
def Units.add (u : Units) (k : String) (v : ℚ) : Units :=
  if k = "Fast" then { u with Fast := u.Fast + v }
  else if k = "Heavy" then { u with Heavy := u.Heavy + v }
  else if k = "Light" then { u with Light := u.Light + v }
  else if k = "Ranged" then { u with Ranged := u.Ranged + v }
  else if k = "Artillery" then { u with Artillery := u.Artillery + v }
  else u

/-- `sum(units.values())`. -/
def Units.total (u : Units) : ℚ := u.Fast + u.Heavy + u.Light + u.Ranged + u.Artillery

/-- The `production` dict of `_get_production_data` (fixed keys, same order),
with `other_items` holding the accumulated unrecognized-reward labels. -/
structure Production where
  coins : ℚ := 0
  supplies : ℚ := 0
  medals : ℚ := 0
  forge_points : ℚ := 0
  forgepoint_package : ℚ := 0
  goods : ℚ := 0
  next_age_goods : ℚ := 0
  prev_age_goods : ℚ := 0
  special_goods : ℚ := 0
  guild_goods : ℚ := 0
  units_amount : ℚ := 0
  units_type : String := ""
  fast_units : ℚ := 0
  heavy_units : ℚ := 0
  ranged_units : ℚ := 0
  artillery_units : ℚ := 0
  light_units : ℚ := 0
  rogues_units : ℚ := 0
  next_age_units_amount : ℚ := 0
  next_age_units_type : String := ""
  next_age_fast_units : ℚ := 0
  next_age_heavy_units : ℚ := 0
  next_age_ranged_units : ℚ := 0
  next_age_artillery_units : ℚ := 0
  next_age_light_units : ℚ := 0
  finish_special_production : ℚ := 0
  finish_goods_production : ℚ := 0
  store_kit : ℚ := 0
  mass_self_aid_kit : ℚ := 0
  self_aid_kit : ℚ := 0
  renovation_kit : ℚ := 0
  one_up_kit : ℚ := 0
  finish_all_supplies : ℚ := 0
  other_items : List String := []

/-- `production[key] += v` for the string keys reached through the maps. -/
def Production.add (p : Production) (k : String) (v : ℚ) : Production :=
  if k = "coins" then { p with coins := p.coins + v }
  else if k = "supplies" then { p with supplies := p.supplies + v }
  else if k = "medals" then { p with medals := p.medals + v }
  else if k = "forge_points" then { p with forge_points := p.forge_points + v }
  else if k = "forgepoint_package" then { p with forgepoint_package := p.forgepoint_package + v }
  else if k = "goods" then { p with goods := p.goods + v }
  else if k = "next_age_goods" then { p with next_age_goods := p.next_age_goods + v }
  else if k = "prev_age_goods" then { p with prev_age_goods := p.prev_age_goods + v }
  else if k = "special_goods" then { p with special_goods := p.special_goods + v }
  else if k = "guild_goods" then { p with guild_goods := p.guild_goods + v }
  else if k = "finish_special_production" then { p with finish_special_production := p.finish_special_production + v }
  else if k = "finish_goods_production" then { p with finish_goods_production := p.finish_goods_production + v }
  else if k = "store_kit" then { p with store_kit := p.store_kit + v }
  else if k = "mass_self_aid_kit" then { p with mass_self_aid_kit := p.mass_self_aid_kit + v }
  else if k = "self_aid_kit" then { p with self_aid_kit := p.self_aid_kit + v }
  else if k = "renovation_kit" then { p with renovation_kit := p.renovation_kit + v }
  else if k = "one_up_kit" then { p with one_up_kit := p.one_up_kit + v }
  else if k = "finish_all_supplies" then { p with finish_all_supplies := p.finish_all_supplies + v }
  else p

/-- `prod_map`: JSON resource keys → production dict keys. -/
def prod_map : List (String × String) :=
  [("money", "coins"), ("supplies", "supplies"), ("medals", "medals"),
   ("strategy_points", "forge_points"), ("forgepoint_package", "forgepoint_package"),
   ("all_goods_of_age", "goods"), ("random_good_of_age", "goods"),
   ("all_goods_of_previous_age", "prev_age_goods"),
   ("random_good_of_previous_age", "prev_age_goods"),
   ("all_goods_of_next_age", "next_age_goods"),
   ("random_good_of_next_age", "next_age_goods"),
   ("random_special_good_up_to_age", "special_goods")]

/-- `guild_prod_map`. -/
def guild_prod_map : List (String × String) := [("all_goods_of_age", "guild_goods")]

/-- `unit_type_map` (insertion order matters: `break`-based scans take it). -/
def unit_type_map : List (String × String) :=
  [("heavy_melee", "Heavy"), ("fast", "Fast"), ("short_ranged", "Ranged"),
   ("long_ranged", "Artillery"), ("light_melee", "Light")]

/-- `consumables_map`. -/
def consumables_map : List (String × String) :=
  [("rush_event_buildings_instant", "finish_special_production"),
   ("rush_goods_buildings_instant", "finish_goods_production"),
   ("store_building", "store_kit"),
   ("mass_self_aid_kit", "mass_self_aid_kit"),
   ("self_aid_kit", "self_aid_kit"),
   ("renovation_kit", "renovation_kit"),
   ("one_up_kit", "one_up_kit"),
   ("rush_mass_supplies_24h", "finish_all_supplies")]

/-- The mutable locals of `_get_production_data`'s component loop. -/
structure ProdState where
  production : Production := {}
  units : Units := {}
  next_age_units : Units := {}
  goods_next_temp : ℚ := 0
  goods_prev_temp : ℚ := 0
  goods_special_temp : ℚ := 0
  rogues_temp : ℚ := 0
  guild_goods_temp : ℚ := 0
  other_items_temp : List String := []

/-- Python iteration `for x in j`: list elements, dict keys, string
characters; `TypeError` otherwise. -/
def jiterE : J → Py (List J)
  | .arr xs => .ok xs
  | .obj kvs => .ok (kvs.map (fun p => .str p.1))
  | .str s => .ok (s.toList.map (fun c => .str (String.mk [c])))
  | _ => .error ()

/-- `float(reward_lookup.get('totalAmount', reward_lookup.get('amount',
reward_lookup.get('totalAmount', 0))))`. -/
def rewardAmountE (reward_lookup : J) : Py ℚ :=
  match reward_lookup with
  | .obj kvs =>
    let i1 := (alook kvs "totalAmount").getD (.num 0)
    let i2 := (alook kvs "amount").getD i1
    let i3 := (alook kvs "totalAmount").getD i2
    pyNumE i3
  | _ => .error ()

/-- `lookup_rewards.get(reward_id)`: a dict lookup with an arbitrary JSON
value as key (non-string keys simply miss, since `json.load` keys are
strings); raises on a non-dict receiver. -/
def lookupByJ (lookup_rewards reward_id : J) : Py J :=
  match lookup_rewards with
  | .obj kvs => .ok (match reward_id with
      | .str s => (alook kvs s).getD .null
      | _ => .null)
  | _ => .error ()

/-- Appending a raw (non-f-string) value to `other_items_temp`.  The source
appends the value itself; a non-string value would make the later
`sorted(...)`/`', '.join(...)` in the same guarded era computation raise, so
it is modelled as an error at append time. -/
def appendOtherRaw (st : ProdState) (nm : J) : Py ProdState := do
  let s ← pyStrE nm
  pure { st with other_items_temp := st.other_items_temp ++ [s] }

/-- `f"{name} ({int(drop_chance*100)}%)"`. -/
def pctLabel (nm : String) (drop_chance : ℚ) : String :=
  let pct := pyTrunc (drop_chance * 100)
  nm ++ " (" ++ toString pct ++ "%)"

/-- The `for unit_json_id, unit_name in unit_type_map.items()` scan of the
`unit` reward branches: on a substring hit, `Current` targets current-age
units and `NextEra` next-age units (each with `break`); a hit with neither
marker falls through to the next map entry. -/
def unitScanE (reward_id : J) (amount : ℚ) :
    List (String × String) → ProdState → Py ProdState
  | [], st => pure st
  | (uid, uname) :: rest, st => do
    let hit ← pyInJE uid reward_id
    if hit then do
      let bCur ← pyInJE "Current" reward_id
      if bCur then pure { st with units := st.units.add uname amount }
      else do
        let bNext ← pyInJE "NextEra" reward_id
        if bNext then pure { st with next_age_units := st.next_age_units.add uname amount }
        else unitScanE reward_id amount rest st
    else unitScanE reward_id amount rest st

/-- The random-branch chest scan: first map entry with
`unit_json_id in reward_id or unit_json_id in first_reward_id` (then `break`). -/
def chestScanE (reward_id first_reward_id : J) :
    List (String × String) → Py (Option String)
  | [] => pure none
  | (uid, uname) :: rest => do
    let b1 ← pyInJE uid reward_id
    if b1 then pure (some uname)
    else do
      let b2 ← pyInJE uid first_reward_id
      if b2 then pure (some uname)
      else chestScanE reward_id first_reward_id rest

/-- The `consumable` reward branch body, shared by the deterministic and
random paths: `mult` is the applied drop-chance factor (1 when
deterministic) and `lbl` renders the fallthrough `other_items` entry. -/
def consumableBranch (reward_lookup reward_id : J) (reward_amount mult : ℚ)
    (lbl : J → Py (ProdState → Py ProdState)) (st : ProdState) : Py ProdState := do
  let reward_subtype ← reward_lookup.getN "subType"
  if reward_subtype.eqStr "fragment" then do
    let assembled ← reward_lookup.getE "assembledReward" (.obj [])
    let rid2 ← assembled.getN "id"
    match rid2 with
    | .str s =>
      match alook consumables_map s with
      | some tgt => do
        let rq ← reward_lookup.getE "requiredAmount" (.num 1)
        let rqq ← pyNumE rq
        let amt ← pyDivE reward_amount rqq
        pure { st with production := st.production.add tgt (amt * mult) }
      | none => do
        let nm ← reward_lookup.getE "name" (.str "Unknown Consumable")
        (← lbl nm) st
    | _ => do
      let nm ← reward_lookup.getE "name" (.str "Unknown Consumable")
      (← lbl nm) st
  else
    match reward_id with
    | .str s =>
      match alook consumables_map s with
      | some tgt =>
        pure { st with production := st.production.add tgt (reward_amount * mult) }
      | none => do
        let nm ← reward_lookup.getE "name" (.str "Unknown Consumable")
        (← lbl nm) st
    | _ => do
      let nm ← reward_lookup.getE "name" (.str "Unknown Consumable")
      (← lbl nm) st

/-- The `set` reward branch body (same sharing convention). -/
def setBranch (reward_lookup : J) (reward_amount mult : ℚ)
    (lbl : J → Py (ProdState → Py ProdState)) (st : ProdState) : Py ProdState := do
  let rewardsArr ← reward_lookup.getE "rewards" (.arr [.obj []])
  let first ← pyIndex0E rewardsArr
  let rid2 ← first.getN "id"
  match rid2 with
  | .str s =>
    match alook consumables_map s with
    | some tgt => pure { st with production := st.production.add tgt (reward_amount * mult) }
    | none => do
      let nm ← reward_lookup.getE "name" (.str "Unknown Consumable")
      (← lbl nm) st
  | _ => do
    let nm ← reward_lookup.getE "name" (.str "Unknown Consumable")
    (← lbl nm) st

/-- The `good`/`special_goods`/`guild_goods` reward branch body. -/
def goodsBranch (reward_id : J) (amount : ℚ) (st : ProdState) : Py ProdState := do
  let bCur ← pyInJE "Current" reward_id
  if bCur then pure { st with production := st.production.add "goods" amount }
  else do
    let bSpec ← pyInJE "special" reward_id
    if bSpec then pure { st with goods_special_temp := st.goods_special_temp + amount }
    else do
      let bNext ← pyInJE "Next" reward_id
      if bNext then pure { st with goods_next_temp := st.goods_next_temp + amount }
      else do
        let bPrev ← pyInJE "Previous" reward_id
        if bPrev then pure { st with goods_prev_temp := st.goods_prev_temp + amount }
        else do
          let bGuild ← pyInJE "guild_goods" reward_id
          if bGuild then pure { st with guild_goods_temp := st.guild_goods_temp + amount }
          else pure st

/-- The `'forgepoint_package' in reward_id` branch body. -/
def forgepointBranch (reward_id : J) (reward_amount mult : ℚ) (st : ProdState) :
    Py (Option ProdState) := do
  let bFp ← pyInJE "forgepoint_package" reward_id
  if bFp then do
    let bL ← pyInJE "large" reward_id
    let bM ← pyInJE "medium" reward_id
    let bS ← pyInJE "small" reward_id
    let fp_val : ℚ := if bL then 10 else if bM then 5 else if bS then 2 else 0
    let p' := st.production.add "forgepoint_package" (fp_val * reward_amount * mult)
    pure (some { st with production := p' })
  else pure none

/-- One entry of a deterministic production option's `products` list. -/
def processOptionE (lookup_rewards : J) (component_key : String)
    (st : ProdState) (option : J) : Py ProdState := do
  match option with
  | .obj _ => do
    let option_type ← option.getN "type"
    -- drop_chance is computed (and can raise) though unused afterwards
    let _drop_chance ← (if !option_type.eqStr "random" then do
        let dc ← option.getE "dropChance" (.num 1)
        pyNumE dc
      else pure (1 : ℚ))
    if option_type.eqStr "resources" then do
      let pr ← option.getE "playerResources" (.obj [])
      let resources ← pr.getE "resources" (.obj [])
      match resources with
      | .obj kvs =>
        kvs.foldlM (fun st p => do
          match alook prod_map p.1 with
          | some tgt => do
            let amt ← pyNumE p.2
            pure { st with production := st.production.add tgt amt }
          | none => pure st) st
      | _ => pure st
    else if option_type.eqStr "unit" then do
      let unit_id ← option.getN "unitTypeId"
      let amtJ ← option.getE "amount" (.num 0)
      let amount ← pyNumE amtJ
      if unit_id.eqStr "rogue" then
        pure { st with rogues_temp := st.rogues_temp + amount }
      else
        match unit_id with
        | .str s =>
          match alook unit_type_map s with
          | some uname => pure { st with units := st.units.add uname amount }
          | none =>
            -- `elif unit_id and "NextEra" in unit_id:`
            if s ≠ "" && pyInStr "NextEra" s then
              (let cleaned := pyReplace s "NextEra" ""
               match alook unit_type_map cleaned with
               | some uname => pure { st with next_age_units := st.next_age_units.add uname amount }
               | none => pure st)
            else pure st
        | u =>
          -- `elif unit_id and "NextEra" in unit_id:` on a truthy non-string id:
          -- the `in` test runs (raising on numbers); a hit then raises at
          -- `.replace` (no such method outside strings)
          if u.truthy then do
            let b ← pyInJE "NextEra" u
            if b then .error () else pure st
          else pure st
    else if option_type.eqStr "guildResources" then do
      let gr ← option.getE "guildResources" (.obj [])
      let resources ← gr.getE "resources" (.obj [])
      match resources with
      | .obj kvs =>
        kvs.foldlM (fun st p => do
          match alook guild_prod_map p.1 with
          | some tgt => do
            let amt ← pyNumE p.2
            pure { st with production := st.production.add tgt amt }
          | none => pure st) st
      | _ => pure st
    else if option_type.eqStr "genericReward" then do
      let rewardObj ← option.getE "reward" (.obj [])
      let reward_id ← rewardObj.getN "id"
      let reward_lookup ← lookupByJ lookup_rewards reward_id
      if !reward_lookup.truthy then pure st
      else do
        let reward_type ← reward_lookup.getN "type"
        let reward_amount ← rewardAmountE reward_lookup
        -- deterministic appends the raw `name` value (no drop-chance label)
        let lbl := fun (nm : J) => pure (α := ProdState → Py ProdState)
          (fun st => appendOtherRaw st nm)
        if reward_type.eqStr "consumable" then
          consumableBranch reward_lookup reward_id reward_amount 1 lbl st
        else if reward_type.eqStr "set" then
          setBranch reward_lookup reward_amount 1 lbl st
        else if reward_type.eqStr "good" || reward_type.eqStr "special_goods"
            || reward_type.eqStr "guild_goods" then
          goodsBranch reward_id reward_amount st
        else if reward_type.eqStr "unit" then do
          let bRogue ← pyInJE "rogue" reward_id
          if bRogue then pure { st with rogues_temp := st.rogues_temp + reward_amount }
          else unitScanE reward_id reward_amount unit_type_map st
        else if reward_type.eqStr "chest" then do
          let pr ← reward_lookup.getE "possible_rewards" (.arr [.obj []])
          let possible ← pyIndex0E pr
          let first_reward_data ← possible.getE "reward" (.obj [])
          let a1 ← first_reward_data.getE "totalAmount" (.num 0)
          let a2 ← first_reward_data.getE "amount" a1
          let first_reward_amount ← pyNumE a2
          let first_reward_type ← first_reward_data.getN "type"
          let bNE ← pyInJE "NextEra" reward_id
          if bNE && first_reward_type.eqStr "good" then
            pure { st with goods_next_temp := st.goods_next_temp + first_reward_amount }
          else do
            let bNAU ← pyInJE "next_age_unit" reward_id
            if bNAU then do
              let dcj ← possible.getE "drop_chance" (.num 100)
              let dc ← pyNumE dcj
              -- no `break`: every unit type receives the amount
              let amt := first_reward_amount * dc / 100
              pure { st with next_age_units :=
                unit_type_map.foldl (fun u p => u.add p.2 amt) st.next_age_units }
            else do
              let bRU ← pyInJE "random_unit" reward_id
              if bRU then do
                let dcj ← possible.getE "drop_chance" (.num 100)
                let dc ← pyNumE dcj
                -- `break` right after the first entry ("Heavy")
                match unit_type_map with
                | (_, uname) :: _ =>
                  pure { st with units := st.units.add uname (first_reward_amount * dc / 100) }
                | [] => pure st
              else pure st
        else do
          -- no trailing `else`: a reward type not matched above is dropped
          -- unless the id names a forge-point package
          match ← forgepointBranch reward_id reward_amount 1 st with
          | some st' => pure st'
          | none => pure st
    else if option_type.eqStr "random" then do
      let products_in_random ← option.getE "products" (.arr [])
      let elems ← jiterE products_in_random
      elems.foldlM (fun st product => do
        match product with
        | .obj _ => do
          let product_data ← product.getE "product" (.obj [])
          let pdcJ ← product.getE "dropChance" (.num 0)
          let prod_drop_chance ← pyNumE pdcJ
          if prod_drop_chance = 0 then pure st
          else do
            let prod_type ← product_data.getN "type"
            if prod_type.eqStr "resources" then do
              let pr ← product_data.getE "playerResources" (.obj [])
              let resources ← pr.getE "resources" (.obj [])
              match resources with
              | .obj kvs =>
                kvs.foldlM (fun st p => do
                  match alook prod_map p.1 with
                  | some tgt => do
                    let amt ← pyNumE p.2
                    pure { st with production :=
                      st.production.add tgt (amt * prod_drop_chance) }
                  | none =>
                    if p.1 = "guild_goods" then do
                      let amt ← pyNumE p.2
                      pure { st with guild_goods_temp :=
                        st.guild_goods_temp + amt * prod_drop_chance }
                    else pure st) st
              | _ => pure st
            else if prod_type.eqStr "genericReward" then do
              let rewardObj ← product_data.getE "reward" (.obj [])
              let reward_id ← rewardObj.getN "id"
              let reward_lookup ← lookupByJ lookup_rewards reward_id
              if !reward_lookup.truthy then pure st
              else do
                let reward_type ← reward_lookup.getN "type"
                let reward_amount ← rewardAmountE reward_lookup
                -- random-path fallthroughs append an f-string label with the
                -- drop-chance percentage (f-strings render any value)
                let lbl := fun (nm : J) => pure (α := ProdState → Py ProdState)
                  (fun st => pure { st with other_items_temp :=
                    st.other_items_temp ++ [pctLabel nm.pystr prod_drop_chance] })
                if reward_type.eqStr "consumable" then
                  consumableBranch reward_lookup reward_id reward_amount prod_drop_chance lbl st
                else if reward_type.eqStr "set" then
                  setBranch reward_lookup reward_amount prod_drop_chance lbl st
                else if reward_type.eqStr "good" || reward_type.eqStr "special_goods"
                    || reward_type.eqStr "guild_goods" then
                  goodsBranch reward_id (reward_amount * prod_drop_chance) st
                else if reward_type.eqStr "unit" then do
                  if component_key = "AllAge" then pure st
                  else do
                    let bRogue ← pyInJE "rogue" reward_id
                    if bRogue then
                      pure { st with rogues_temp :=
                        st.rogues_temp + reward_amount * prod_drop_chance }
                    else unitScanE reward_id (reward_amount * prod_drop_chance) unit_type_map st
                else if reward_type.eqStr "chest" then do
                  let pr ← reward_lookup.getE "possible_rewards" (.arr [.obj []])
                  let possible ← pyIndex0E pr
                  let first_reward_data ← possible.getE "reward" (.obj [])
                  let a1 ← first_reward_data.getE "totalAmount" (.num 0)
                  let a2 ← first_reward_data.getE "amount" a1
                  let first_reward_amount ← pyNumE a2
                  let first_reward_type ← first_reward_data.getN "type"
                  let icj ← possible.getE "drop_chance" (.num 100)
                  let ic ← pyNumE icj
                  let chest_inner_chance := ic / 100
                  let effective_chance := prod_drop_chance * chest_inner_chance
                  let bNE ← pyInJE "NextEra" reward_id
                  let bNA ← pyInJE "next_age" reward_id
                  if (bNE || bNA) && first_reward_type.eqStr "good" then
                    pure { st with goods_next_temp :=
                      st.goods_next_temp + first_reward_amount * effective_chance }
                  else do
                    let bNAU ← pyInJE "next_age_unit" reward_id
                    if bNAU then do
                      let fid ← first_reward_data.getE "id" (.str "")
                      match ← chestScanE reward_id fid unit_type_map with
                      | some uname =>
                        let u' := st.next_age_units.add uname (first_reward_amount * effective_chance)
                        pure { st with next_age_units := u' }
                      | none => pure st
                    else do
                      let bRU ← pyInJE "random_unit" reward_id
                      if bRU then do
                        let fid ← first_reward_data.getE "id" (.str "")
                        match ← chestScanE reward_id fid unit_type_map with
                        | some uname =>
                          let u' := st.units.add uname (first_reward_amount * effective_chance)
                          pure { st with units := u' }
                        | none => pure st
                      else pure st
                else do
                  match ← forgepointBranch reward_id reward_amount prod_drop_chance st with
                  | some st' => pure st'
                  | none => do
                    -- the random path DOES have a trailing else: unrecognized
                    -- reward kinds are recorded with their drop chance
                    let nm ← product_data.getE "name" (.str "Unknown Reward")
                    pure { st with other_items_temp :=
                      st.other_items_temp ++ [pctLabel nm.pystr prod_drop_chance] }
            else pure st
        | _ => pure st) st
    else pure st
  | _ => pure st

/-- `", ".join(f"{k}: {v:.2f}" for positive units)` plus the rogues suffix. -/
def unitsTypeString (u : Units) (rogues : ℚ) : String :=
  let parts := ([("Fast", u.Fast), ("Heavy", u.Heavy), ("Light", u.Light),
     ("Ranged", u.Ranged), ("Artillery", u.Artillery)].filter (fun p => p.2 > 0)).map
    (fun p => p.1 ++ ": " ++ fmt2 p.2)
  String.intercalate ", " parts
    ++ (if rogues > 0 then ", Rogues: " ++ fmt2 rogues else "")

/-- Same for the next-age units (no rogues suffix). -/
def nextUnitsTypeString (u : Units) : String :=
  let parts := ([("Fast", u.Fast), ("Heavy", u.Heavy), ("Light", u.Light),
     ("Ranged", u.Ranged), ("Artillery", u.Artillery)].filter (fun p => p.2 > 0)).map
    (fun p => p.1 ++ ": " ++ fmt2 p.2)
  String.intercalate ", " parts

/-- The twelve "past" eras whose special goods are reclassified as
next-age goods. -/
def pastEras : List String :=
  ["BronzeAge", "IronAge", "HighMiddleAge", "LateMiddleAge", "ColonialAge",
   "ProgressiveEra", "IndustrialAge", "ModernEra", "PostModernEra",
   "ContemporaryEra", "TomorrowEra", "FutureEra"]

/-- Round every numeric production value to 2 decimals (the final
`for k, v in production.items(): ... round(v, 2)` pass). -/
def Production.roundAll (p : Production) : Production :=
  { p with
    coins := round2 p.coins, supplies := round2 p.supplies, medals := round2 p.medals,
    forge_points := round2 p.forge_points, forgepoint_package := round2 p.forgepoint_package,
    goods := round2 p.goods, next_age_goods := round2 p.next_age_goods,
    prev_age_goods := round2 p.prev_age_goods, special_goods := round2 p.special_goods,
    guild_goods := round2 p.guild_goods, units_amount := round2 p.units_amount,
    fast_units := round2 p.fast_units, heavy_units := round2 p.heavy_units,
    ranged_units := round2 p.ranged_units, artillery_units := round2 p.artillery_units,
    light_units := round2 p.light_units, rogues_units := round2 p.rogues_units,
    next_age_units_amount := round2 p.next_age_units_amount,
    next_age_fast_units := round2 p.next_age_fast_units,
    next_age_heavy_units := round2 p.next_age_heavy_units,
    next_age_ranged_units := round2 p.next_age_ranged_units,
    next_age_artillery_units := round2 p.next_age_artillery_units,
    next_age_light_units := round2 p.next_age_light_units,
    finish_special_production := round2 p.finish_special_production,
    finish_goods_production := round2 p.finish_goods_production,
    store_kit := round2 p.store_kit, mass_self_aid_kit := round2 p.mass_self_aid_kit,
    self_aid_kit := round2 p.self_aid_kit, renovation_kit := round2 p.renovation_kit,
    one_up_kit := round2 p.one_up_kit, finish_all_supplies := round2 p.finish_all_supplies }

/-- The aggregation tail of `_get_production_data` (temp merging, past-era
special-goods reclassification, unit summaries, dedup/sort of `other_items`,
final rounding). -/
def finalizeProduction (st : ProdState) (era_key : String) : Production :=
  let p := st.production
  let p := { p with guild_goods := p.guild_goods + st.guild_goods_temp }
  let p := { p with next_age_goods := p.next_age_goods + st.goods_next_temp }
  let p := { p with prev_age_goods := p.prev_age_goods + st.goods_prev_temp }
  let p := if pastEras.contains era_key then
      { p with next_age_goods := p.next_age_goods + p.special_goods, special_goods := 0 }
    else { p with special_goods := p.special_goods + st.goods_special_temp }
  let p := { p with
    rogues_units := st.rogues_temp,
    fast_units := st.units.Fast, heavy_units := st.units.Heavy,
    ranged_units := st.units.Ranged, artillery_units := st.units.Artillery,
    light_units := st.units.Light,
    units_amount := st.units.total + st.rogues_temp,
    units_type := unitsTypeString st.units st.rogues_temp,
    next_age_fast_units := st.next_age_units.Fast,
    next_age_heavy_units := st.next_age_units.Heavy,
    next_age_ranged_units := st.next_age_units.Ranged,
    next_age_artillery_units := st.next_age_units.Artillery,
    next_age_light_units := st.next_age_units.Light,
    next_age_units_amount := st.next_age_units.total,
    next_age_units_type := nextUnitsTypeString st.next_age_units,
    other_items := pySortedDedup st.other_items_temp }
  p.roundAll

/-- `BuildingAnalyzer._get_production_data(components, era_key,
building_name)` (the name is used only for logging). -/
def get_production_data (components : J) (era_key : String) (building_name : J) :
    Py Production := do
  let step := fun (st : ProdState) (component_key : String) => do
    let component_data ← components.getE component_key (.obj [])
    let prod_component ← component_data.getE "production" (.obj [])
    if !prod_component.truthy then pure st
    else do
      let lookup0 ← component_data.getE "lookup" (.obj [])
      let lookup_rewards ← lookup0.getE "rewards" (.obj [])
      let options ← prod_component.getE "options" (.arr [.obj []])
      let first_option ← pyIndex0E options
      let productsJ ← first_option.getE "products" (.arr [])
      let products ← jiterE productsJ
      products.foldlM (processOptionE lookup_rewards component_key) st
  let st ← step {} era_key
  let st ← step st "AllAge"
  pure (finalizeProduction st era_key)

/-! ### `_get_boost_data` -/

/-- The `boosts` output dict of `_get_boost_data` (fixed keys, code order). -/
def boosts_init : List (String × ℚ) :=
  [("Red Attack", 0), ("Red Defense", 0), ("Red GBG Attack", 0), ("Red GBG Defense", 0),
   ("Red GE Attack", 0), ("Red GE Defense", 0), ("Red QI Attack", 0), ("Red QI Defense", 0),
   ("Blue Attack", 0), ("Blue Defense", 0), ("Blue GBG Attack", 0), ("Blue GBG Defense", 0),
   ("Blue GE Attack", 0), ("Blue GE Defense", 0), ("Blue QI Attack", 0), ("Blue QI Defense", 0),
   ("Coin %", 0), ("QI Coin %", 0), ("QI Coin at start", 0), ("Supplies %", 0),
   ("QI Supplies %", 0), ("QI Supplies at start", 0), ("QI Goods at start", 0),
   ("QI Units at start", 0), ("QA per hour", 0), ("FP boost", 0),
   ("Guild Goods Production %", 0), ("Special Goods Production %", 0),
   ("Medal Boost", 0), ("Goods Boost", 0)]

/-- `boost_map`: `(boost_type, targetedFeature)` → affected output keys. -/
def boost_map : List ((String × String) × List String) :=
  [(("att_boost_attacker", "all"), ["Red Attack"]),
   (("def_boost_attacker", "all"), ["Red Defense"]),
   (("att_boost_attacker", "battleground"), ["Red GBG Attack"]),
   (("def_boost_attacker", "battleground"), ["Red GBG Defense"]),
   (("att_boost_attacker", "guild_expedition"), ["Red GE Attack"]),
   (("def_boost_attacker", "guild_expedition"), ["Red GE Defense"]),
   (("att_boost_attacker", "guild_raids"), ["Red QI Attack"]),
   (("def_boost_attacker", "guild_raids"), ["Red QI Defense"]),
   (("att_boost_defender", "all"), ["Blue Attack"]),
   (("def_boost_defender", "all"), ["Blue Defense"]),
   (("att_boost_defender", "battleground"), ["Blue GBG Attack"]),
   (("def_boost_defender", "battleground"), ["Blue GBG Defense"]),
   (("att_boost_defender", "guild_expedition"), ["Blue GE Attack"]),
   (("def_boost_defender", "guild_expedition"), ["Blue GE Defense"]),
   (("att_boost_defender", "guild_raids"), ["Blue QI Attack"]),
   (("def_boost_defender", "guild_raids"), ["Blue QI Defense"]),
   (("att_def_boost_attacker", "all"), ["Red Attack", "Red Defense"]),
   (("att_def_boost_attacker", "battleground"), ["Red GBG Attack", "Red GBG Defense"]),
   (("att_def_boost_attacker", "guild_expedition"), ["Red GE Attack", "Red GE Defense"]),
   (("att_def_boost_attacker", "guild_raids"), ["Red QI Attack", "Red QI Defense"]),
   (("att_def_boost_defender", "all"), ["Blue Attack", "Blue Defense"]),
   (("att_def_boost_defender", "battleground"), ["Blue GBG Attack", "Blue GBG Defense"]),
   (("att_def_boost_defender", "guild_expedition"), ["Blue GE Attack", "Blue GE Defense"]),
   (("att_def_boost_defender", "guild_raids"), ["Blue QI Attack", "Blue QI Defense"]),
   (("att_def_boost_attacker_defender", "all"),
      ["Red Attack", "Red Defense", "Blue Attack", "Blue Defense"]),
   (("att_def_boost_attacker_defender", "battleground"),
      ["Red GBG Attack", "Red GBG Defense", "Blue GBG Attack", "Blue GBG Defense"]),
   (("att_def_boost_attacker_defender", "guild_expedition"),
      ["Red GE Attack", "Red GE Defense", "Blue GE Attack", "Blue GE Defense"]),
   (("att_def_boost_attacker_defender", "guild_raids"),
      ["Red QI Attack", "Red QI Defense", "Blue QI Attack", "Blue QI Defense"]),
   (("coin_production", "all"), ["Coin %"]),
   (("supply_production", "all"), ["Supplies %"]),
   (("guild_raids_coins_production", "all"), ["QI Coin %"]),
   (("guild_raids_coins_start", "all"), ["QI Coin at start"]),
   (("guild_raids_supplies_production", "all"), ["QI Supplies %"]),
   (("guild_raids_supplies_start", "all"), ["QI Supplies at start"]),
   (("guild_raids_goods_start", "all"), ["QI Goods at start"]),
   (("guild_raids_units_start", "all"), ["QI Units at start"]),
   (("guild_raids_action_points_collection", "all"), ["QA per hour"]),
   (("forge_points_production", "all"), ["FP boost"]),
   (("guild_goods_production", "all"), ["Guild Goods Production %"]),
   (("special_goods_production", "all"), ["Special Goods Production %"]),
   (("medal_production", "all"), ["Medal Boost"]),
   (("goods_production", "all"), ["Goods Boost"])]

/-- `boosts[final_key] += value` (keys outside the dict are warned and
skipped, which a no-op models). -/
def bumpBoosts (bs : List (String × ℚ)) (k : String) (v : ℚ) : List (String × ℚ) :=
  bs.map (fun p => if p.1 = k then (p.1, p.2 + v) else p)

/-- `BuildingAnalyzer._get_boost_data(components, era_key)`. -/
def get_boost_data (components : J) (era_key : String) : Py (List (String × ℚ)) := do
  let step := fun (bs : List (String × ℚ)) (component_key : String) => do
    let component_data ← components.getE component_key (.obj [])
    let boost_comp ← component_data.getE "boosts" (.obj [])
    if !boost_comp.truthy then pure bs
    else do
      let bl ← boost_comp.getE "boosts" (.arr [])
      let elems ← jiterE bl
      elems.foldlM (fun bs boost => do
        let boost_type ← boost.getN "type"
        let target ← boost.getN "targetedFeature"
        let vJ ← boost.getE "value" (.num 0)
        let value ← pyNumE vJ
        match boost_type, target with
        | .str t, .str tg =>
          (match boost_map.find? (fun e => e.1.1 == t && e.1.2 == tg) with
           | some e => pure (e.2.foldl (fun bs k => bumpBoosts bs k value) bs)
           | none => pure bs)
        | _, _ => pure bs) bs
  let bs ← step boosts_init era_key
  let bs ← step bs "AllAge"
  pure (bs.map (fun p => (p.1, round2 p.2)))

/-! ### `load_data`: the main parsing loop -/

/-- One flattened (building, era) output dictionary of
`BuildingAnalyzer.load_data`. -/
structure Rec where
  id : String
  name : J
  event : J
  era : String
  x : ℚ
  y : ℚ
  size : String
  squares_avg : ℚ
  road : Bool
  limited : String
  ally_room : String
  population : J
  happiness : J
  production : Production
  boosts : List (String × ℚ)
  other_productions : String

/-- The year-suffix scan `for v in [18..30]: if f"{v}" in building_id`. -/
def findYear (building_id : String) (years : List Nat) : Option Nat :=
  years.find? (fun v => pyInStr (toString v) building_id)

/-- The event-tag derivation of `load_data` (lines filtering
`event_building_tag_exceptions`, then scanning `event_tags`, with year
suffixes for non-`COP`/`Expedition` tags and a final fallback to the id). -/
def computeEventTag (building_id : String)
    (event_tags event_building_tag_exceptions : List (String × J)) : Py J := do
  match alook event_building_tag_exceptions building_id with
  | some v => pure v
  | none => do
    let tagLoop : List (String × J) → Option J → Py (Option J) := fun l init =>
      let rec go : List (String × J) → Option J → Py (Option J)
        | [], acc => pure acc
        | (tag, label) :: rest, acc =>
          if pyInStr tag building_id && !(["COP", "Expedition"].contains tag) then
            (if tag ≠ "GBG" then
              match findYear building_id [18, 19, 20, 21, 22, 23, 24, 25, 26, 27, 28, 29, 30] with
              | some v => do
                let lbl ← pyStrE label  -- str + str concatenation
                go rest (some (.str (lbl ++ " 20" ++ toString v)))
              | none => go rest acc
            else
              match findYear building_id [23, 24, 25, 26, 27, 28, 29, 30] with
              | some v => do
                let lbl ← pyStrE label
                go rest (some (.str (lbl ++ " 20" ++ toString v)))
              | none => go rest acc)
          else if pyInStr tag building_id && ["COP", "Expedition"].contains tag then
            pure (some label)  -- `break`
          else go rest acc
      go l init
    let acc ← tagLoop event_tags none
    -- `if not building_event_tag: building_event_tag = building_id`
    match acc with
    | some v => if v.truthy then pure v else pure (.str building_id)
    | none => pure (.str building_id)

/-- The body of the per-era `try:` block: build one record for `era_key`. -/
def processEra (components : J) (building_id : String) (building_name event : J)
    (width height : ℚ) (size_str : String) (sq_avg : ℚ) (needs_road : Bool)
    (limited_str ally_room_str : String) (era_key : String) : Py Rec := do
  let (pop, happiness) ← get_pop_happiness components era_key
  let production_data ← get_production_data components era_key building_name
  let boost_data ← get_boost_data components era_key
  pure { id := building_id, name := building_name, event := event, era := era_key,
         x := width, y := height, size := size_str, squares_avg := sq_avg,
         road := needs_road, limited := limited_str, ally_room := ally_room_str,
         population := pop, happiness := happiness, production := production_data,
         boosts := boost_data,
         other_productions := String.intercalate ", " production_data.other_items }

/-- `BuildingAnalyzer.load_data` on already-parsed JSON: the per-building
loop.  A building-level failure of the common (`AllAge`) data and a failure
of a single era are caught and skipped (`try/except` in the source); an
exception anywhere else — notably `building_entry.get('id')` on a non-dict
entry, or `.startswith` on a missing/non-string id — escapes to the
function-level handler, which re-raises, so the whole load fails
(`.error ()`) and no records survive. -/
def loadData (raw_building_data : List J)
    (event_tags event_building_tag_exceptions : List (String × J)) : Py (List Rec) :=
  raw_building_data.foldlM (fun acc building_entry => do
    let idJ ← building_entry.getN "id"
    let building_id ← pyStrE idJ  -- `building_id.startswith(('W_'))`
    if !pyStartsWith building_id "W_" then pure acc
    else do
      let building_name ← building_entry.getE "name" (.str "Unknown")
      let building_event_tag ←
        computeEventTag building_id event_tags event_building_tag_exceptions
      let components ← building_entry.getN "components"
      match components with
      | .obj kvs =>
        if !components.truthy then pure acc  -- empty dict is falsy: skipped
        else
          match (do
            let sd ← calculate_size_data components
            let lim ← check_limitations components
            let ally ← get_ally_room components
            pure (sd, lim, ally) : Py _) with
          | .error _ => pure acc  -- common-data failure skips the building
          | .ok ((width, height, size_str, sq_avg, needs_road), lim, ally) =>
            pure (kvs.foldl (fun acc2 kv =>
              if kv.1 = "AllAge" then acc2
              else
                match processEra components building_id building_name
                    building_event_tag width height size_str sq_avg needs_road
                    lim ally kv.1 with
                | .ok rec => acc2 ++ [rec]
                | .error _ => acc2  -- a failing era is skipped
              ) acc)
      | _ => pure acc  -- missing / non-dict components: skipped with a warning
    ) []

/-! ## `src/advanced_filters.py`: `AdvancedFilterManager._apply_filters`

A DataFrame cell is numeric or categorical (string); a missing cell is
pandas `NaN`.  A table keeps its column list (columns survive filtering even
when no rows do) and its rows with their pandas index labels.  The active
filters are an insertion-ordered dict `column → filter_config`; the four
`filter_config` shapes are told apart exactly as the source's
`"operator" in config / "min" or "max" / "values" / "value"` dispatch does. -/

/-- One DataFrame cell. -/
inductive Cell where
  | num (q : ℚ)
  | str (s : String)
deriving DecidableEq, Repr

/-- A DataFrame: column names plus (index label, row) pairs. -/
structure FTable where
  cols : List String
  rows : List (Nat × List (String × Cell))
deriving DecidableEq, Repr

/-- A `filter_config` dict, by shape:
`op` = the operator-based numeric filters (`value2` only present for
`between`); `minmax` = the legacy `{min,max}` filters; `isinF` = categorical
`{values, operation, exclude}`; `single` = `{value, operation?, exclude}`. -/
inductive FilterConfig where
  | op (operator : String) (value1 : ℚ) (value2 : Option ℚ) (exclude : Bool)
  | minmax (lo hi : Option ℚ) (exclude : Bool)
  | isinF (values : List String) (operation : String) (exclude : Bool)
  | single (value : Cell) (operation : Option String) (exclude : Bool)
deriving DecidableEq, Repr

/-- `filter_config.get("exclude", False)`. -/
def FilterConfig.exclude : FilterConfig → Bool
  | .op _ _ _ e => e
  | .minmax _ _ e => e
  | .isinF _ _ e => e
  | .single _ _ e => e

/-- Element-wise numeric comparison against a scalar, pandas-style: a missing
cell (`NaN`) compares `False` under every operator except `!=`, where it is
`True`.  (The UI builds these filters only over numeric columns, so a string
cell is treated like a non-match.)  `between` with a missing second operand
compares against `None` and raises.  An unknown operator yields the
all-`True` mask. -/
def numCmpMask (operator : String) (value1 : ℚ) (value2 : Option ℚ)
    (c : Option Cell) : Py Bool :=
  if operator = "between" then
    match value2 with
    | none => .error ()
    | some b => .ok (match c with | some (.num q) => value1 ≤ q && q ≤ b | _ => false)
  else if operator = "greater_than" then
    .ok (match c with | some (.num q) => value1 < q | _ => false)
  else if operator = "greater_equal" then
    .ok (match c with | some (.num q) => value1 ≤ q | _ => false)
  else if operator = "less_than" then
    .ok (match c with | some (.num q) => q < value1 | _ => false)
  else if operator = "less_equal" then
    .ok (match c with | some (.num q) => q ≤ value1 | _ => false)
  else if operator = "equal" then
    .ok (match c with | some (.num q) => q == value1 | _ => false)
  else if operator = "not_equal" then
    .ok (match c with | some (.num q) => q != value1 | _ => true)
  else .ok true

/-- The legacy `{min,max}` mask (starts all-`True`, `&=` each bound). -/
def minmaxMask (lo hi : Option ℚ) (c : Option Cell) : Bool :=
  (match lo with
   | some v => (match c with | some (.num q) => v ≤ q | _ => false)
   | none => true)
  && (match hi with
   | some v => (match c with | some (.num q) => q ≤ v | _ => false)
   | none => true)

/-- `df[column].isin(values)` for the UI's string value lists. -/
def isinMask (values : List String) (c : Option Cell) : Bool :=
  match c with
  | some (.str s) => values.contains s
  | _ => false

/-- Lower-cased rendering for the `contains` single-value filter. -/
def cellLower : Option Cell → String
  | some (.str s) => String.mk (s.toList.map Char.toLower)
  | some (.num q) => String.mk ((J.num q).pystr.toList.map Char.toLower)
  | none => "nan"

/-- The `{value, operation?}` single-value mask (`contains` is
case-insensitive substring over the stringified column). -/
def singleMask (value : Cell) (operation : Option String) (c : Option Cell) : Bool :=
  if operation = some "contains" then
    pyInStr (cellLower (some value)) (cellLower c)
  else c == some value

/-- Exception-aware element-wise filtering (the vectorized pandas comparison
applied row by row). -/
def pyFilterM {α : Type} (body : α → Py Bool) : List α → Py (List α)
  | [] => pure []
  | x :: xs => do
    let b ← body x
    let rest ← pyFilterM body xs
    pure (if b then x :: rest else rest)

/-- The body of one AND-loop iteration for a filter whose column is present:
computes the (post-exclusion) mask on the surviving rows and narrows them.
A `values` config whose operation is not `"isin"` runs no mask block: the
rows pass through unchanged. -/
def andStep (column : String) (cfg : FilterConfig)
    (rows : List (Nat × List (String × Cell))) :
    Py (List (Nat × List (String × Cell))) :=
  match cfg with
  | .op operator value1 value2 excl =>
    -- the element-wise comparison is evaluated on each surviving row
    pyFilterM (fun r => do
      let m ← numCmpMask operator value1 value2 (alook r.2 column)
      pure (if excl then !m else m)) rows
  | .minmax lo hi excl =>
    .ok (rows.filter (fun r =>
      let m := minmaxMask lo hi (alook r.2 column)
      if excl then !m else m))
  | .isinF values operation excl =>
    if operation = "isin" then
      .ok (rows.filter (fun r =>
        let m := isinMask values (alook r.2 column)
        if excl then !m else m))
    else .ok rows
  | .single value operation excl =>
    .ok (rows.filter (fun r =>
      let m := singleMask value operation (alook r.2 column)
      if excl then !m else m))

/-- The AND branch of `_apply_filters`: filters narrow the surviving rows
sequentially; a column absent from the (original) table is skipped. -/
def applyAND (df_cols : List String) :
    List (String × FilterConfig) →
    List (Nat × List (String × Cell)) → Py (List (Nat × List (String × Cell)))
  | [], rows => pure rows
  | (column, cfg) :: rest, rows =>
    if !df_cols.contains column then applyAND df_cols rest rows
    else do
      let rows' ← andStep column cfg rows
      applyAND df_cols rest rows'

/-- One OR-loop iteration's `column_mask` computation, `exclude` applied
before the union.  A `values` config whose operation is not `"isin"` leaves
`column_mask` unassigned, so Python reuses the previous iteration's
(post-exclusion) value — or raises `NameError` when there is none; the
`stale` argument carries that leaked variable. -/
def orStep (column : String) (cfg : FilterConfig)
    (stale : Option ((Nat × List (String × Cell)) → Bool)) :
    Py ((Nat × List (String × Cell)) → Bool) :=
  match cfg with
  | .op operator value1 value2 excl =>
    -- `between` with a missing operand raises while building the mask
    if operator = "between" ∧ value2 = none then .error ()
    else
      .ok (fun r =>
        let m := (numCmpMask operator value1 value2 (alook r.2 column)).toOption.getD true
        if excl then !m else m)
  | .minmax lo hi excl =>
    .ok (fun r =>
      let m := minmaxMask lo hi (alook r.2 column)
      if excl then !m else m)
  | .isinF values operation excl =>
    if operation = "isin" then
      .ok (fun r =>
        let m := isinMask values (alook r.2 column)
        if excl then !m else m)
    else
      -- `column_mask` not assigned: Python reuses the stale (post-exclusion)
      -- variable from a previous iteration, or raises NameError
      (match stale with
       | none => .error ()
       | some m => .ok (fun r => if excl then !(m r) else m r))
  | .single value operation excl =>
    .ok (fun r =>
      let m := singleMask value operation (alook r.2 column)
      if excl then !m else m)

/-- The OR loop over the filters: each present column's (post-exclusion)
mask is computed against the original table and united into `combined`;
the last computed mask rides along as the leaked `column_mask` variable. -/
def applyORGo (df_cols : List String) :
    List (String × FilterConfig) →
    (combined : (Nat × List (String × Cell)) → Bool) →
    (stale : Option ((Nat × List (String × Cell)) → Bool)) →
    Py ((Nat × List (String × Cell)) → Bool)
  | [], combined, _ => pure combined
  | (column, cfg) :: rest, combined, stale =>
    if !df_cols.contains column then applyORGo df_cols rest combined stale
    else do
      let column_mask ← orStep column cfg stale
      applyORGo df_cols rest (fun r => combined r || column_mask r) (some column_mask)

/-- `AdvancedFilterManager._apply_filters(df)` with the session's filter dict
and logic made explicit arguments.  An empty filter dict returns the table
unchanged; `"AND"` narrows sequentially; any other logic string takes the OR
branch, starting from the all-`False` combined mask. -/
def apply_filters (df : FTable) (advanced_filters : List (String × FilterConfig))
    (filter_logic : String) : Py FTable :=
  if advanced_filters.isEmpty then .ok df
  else if filter_logic = "AND" then do
    let rows ← applyAND df.cols advanced_filters df.rows
    pure ⟨df.cols, rows⟩
  else do
    let combined ← applyORGo df.cols advanced_filters (fun _ => false) none
    pure ⟨df.cols, df.rows.filter combined⟩

/-- The index-label set of a table's rows ("row-id set"). -/
def rowIdSet (t : FTable) : Set ℕ := {i | i ∈ t.rows.map Prod.fst}

/-! ## Lemmas about row lookup and update -/

theorem nfind_cons (pk : String) (pv : ℚ) (t : NRow) (k : String) :
    nfind ((pk, pv) :: t) k = if pk = k then some pv else nfind t k := rfl

theorem nfind_map_self (r : NRow) (k : String) (v : ℚ) (h : nmem r k = true) :
    nfind (r.map (fun p => if p.1 = k then (k, v) else p)) k = some v := by
  induction r with
  | nil => simp [nmem, nfind] at h
  | cons p t ih =>
    obtain ⟨pk, pv⟩ := p
    simp only [List.map_cons]
    by_cases hp : pk = k
    · rw [if_pos hp, nfind_cons, if_pos rfl]
    · rw [if_neg hp, nfind_cons, if_neg hp]
      have ht : nmem t k = true := by simpa [nmem, nfind_cons, hp] using h
      exact ih ht

theorem nfind_append_self (r : NRow) (k : String) (v : ℚ) (h : nmem r k = false) :
    nfind (r ++ [(k, v)]) k = some v := by
  induction r with
  | nil => simp [nfind]
  | cons p t ih =>
    obtain ⟨pk, pv⟩ := p
    by_cases hp : pk = k
    · simp [nmem, nfind_cons, hp] at h
    · have ht : nmem t k = false := by simpa [nmem, nfind_cons, hp] using h
      rw [List.cons_append, nfind_cons, if_neg hp]
      exact ih ht

theorem nfind_nset_self (r : NRow) (k : String) (v : ℚ) :
    nfind (nset r k v) k = some v := by
  unfold nset
  by_cases h : nmem r k
  · rw [if_pos h]; exact nfind_map_self r k v h
  · rw [if_neg h]; exact nfind_append_self r k v (by simpa using h)

theorem nfind_map_ne (r : NRow) (k k' : String) (v : ℚ) (h : k' ≠ k) :
    nfind (r.map (fun p => if p.1 = k then (k, v) else p)) k' = nfind r k' := by
  induction r with
  | nil => rfl
  | cons p t ih =>
    obtain ⟨pk, pv⟩ := p
    simp only [List.map_cons]
    by_cases hp : pk = k
    · rw [if_pos hp, nfind_cons, nfind_cons, if_neg (Ne.symm h), hp, if_neg (Ne.symm h)]
      exact ih
    · rw [if_neg hp, nfind_cons, nfind_cons]
      by_cases hp' : pk = k'
      · rw [if_pos hp', if_pos hp']
      · rw [if_neg hp', if_neg hp']
        exact ih

theorem nfind_append_ne (r : NRow) (k k' : String) (v : ℚ) (h : k' ≠ k) :
    nfind (r ++ [(k, v)]) k' = nfind r k' := by
  induction r with
  | nil => simp [nfind, Ne.symm h]
  | cons p t ih =>
    obtain ⟨pk, pv⟩ := p
    rw [List.cons_append, nfind_cons, nfind_cons]
    by_cases hp' : pk = k'
    · rw [if_pos hp', if_pos hp']
    · rw [if_neg hp', if_neg hp']
      exact ih

theorem nfind_nset_ne (r : NRow) (k k' : String) (v : ℚ) (h : k' ≠ k) :
    nfind (nset r k v) k' = nfind r k' := by
  unfold nset
  split
  · exact nfind_map_ne r k k' v h
  · exact nfind_append_ne r k k' v h

theorem nget_nset_self (r : NRow) (k : String) (v d : ℚ) :
    nget (nset r k v) k d = v := by
  simp [nget, nfind_nset_self]

theorem nget_nset_ne (r : NRow) (k k' : String) (v d : ℚ) (h : k' ≠ k) :
    nget (nset r k v) k' d = nget r k' d := by
  simp [nget, nfind_nset_ne _ _ _ _ h]

/-- A row without its two score columns (pandas: every other column). -/
def dropScoreCols (r : NRow) : NRow :=
  r.filter (fun p => p.1 != "Total Score" && p.1 != "Weighted Efficiency")

theorem dropScoreCols_map (r : NRow) (k : String) (v : ℚ)
    (hk : ∀ w : ℚ, ((k : String) != "Total Score" && k != "Weighted Efficiency") = false) :
    dropScoreCols (r.map (fun p => if p.1 = k then (k, v) else p)) = dropScoreCols r := by
  induction r with
  | nil => rfl
  | cons p t ih =>
    obtain ⟨pk, pv⟩ := p
    simp only [List.map_cons]
    by_cases hp : pk = k
    · rw [if_pos hp]
      unfold dropScoreCols at ih ⊢
      rw [List.filter_cons, List.filter_cons]
      rw [show ((k, v).1 != "Total Score" && (k, v).1 != "Weighted Efficiency") = false from hk v]
      rw [show ((pk, pv).1 != "Total Score" && (pk, pv).1 != "Weighted Efficiency") = false from by
        rw [show pk = k from hp]; exact hk pv]
      simpa using ih
    · rw [if_neg hp]
      unfold dropScoreCols at ih ⊢
      rw [List.filter_cons, List.filter_cons]
      by_cases hb : ((pk, pv).1 != "Total Score" && (pk, pv).1 != "Weighted Efficiency") = true
      · rw [if_pos hb, if_pos hb, ih]
      · rw [if_neg hb, if_neg hb, ih]

theorem dropScoreCols_nset (r : NRow) (k : String) (v : ℚ)
    (hk : k = "Total Score" ∨ k = "Weighted Efficiency") :
    dropScoreCols (nset r k v) = dropScoreCols r := by
  have hkp : ((k : String) != "Total Score" && k != "Weighted Efficiency") = false := by
    rcases hk with h | h <;> subst h <;> rfl
  unfold nset
  split
  · exact dropScoreCols_map r k v (fun _ => hkp)
  · unfold dropScoreCols
    rw [List.filter_append]
    simp [List.filter, hkp]

/-! ## Concrete fixtures used by counterexamples and witnesses -/

/-- The per-row "Total Score" column of a scored table. -/
def totalScores (df : List NRow) : List ℚ := df.map (fun r => nget r "Total Score" 0)

/-- C1: a two-row table (50 and 100 forge points, 10 squares each). -/
def c1_df : List NRow :=
  [[("forge_points", 50), ("Nbr of squares (Avg)", 10)],
   [("forge_points", 100), ("Nbr of squares (Avg)", 10)]]

def c1_weights : NRow := [("forge_points", 1)]

def c1_stats : List (String × List (String × ℚ × ℚ)) :=
  [("BronzeAge", [("forge_points", (0, 100))])]

/-- C5 / E2E scenario C: the building row, weights, context and boosts. -/
def c5_row : NRow := [("forge_points", 50), ("FP boost", 5), ("Nbr of squares (Avg)", 10)]

def c5_weights : NRow := [("forge_points", 2)]

def c5_context : NRow := [("fp_daily_production", 100)]

def c5_boosts : NRow := [("current_fp_boost", 10)]

/-! ## Claims -/

/-- C5 counterexample: in E2E scenario C (weight `forge_points=2`, context
`fp_daily_production=100`, city boost `current_fp_boost=10`, building with
`FP boost=5` and base `forge_points=50`), the direct weighted-sum scoring
does NOT put `2 * 57.5 = 115` into the row's total score: the code also adds
the building's self-granted FP-boost contribution computed from the
de-boosted context, so the stored `Total Score` is `124.1`, not `115`. -/
theorem c5_counterexample :
    totalScores (calculate_direct_weighted_efficiency [c5_row] c5_weights c5_context
      (some c5_boosts)) = [1241/10] ∧ (1241/10 : ℚ) ≠ 115 :=
  ⟨by decide, by decide⟩

/-- C5 (amended): in scenario C the combined FP boost is 15% and the step-1
boost-enhanced `forge_points` value is `50 * 1.15 = 57.5`; the code then adds
the building's own FP-boost contribution `5% of (100 / 1.1)` on top, giving
`forge_points = 57.5 + 50/11 = 1365/22 ≈ 62.05`, so the forge-points
contribution is `2 * 1365/22 ≈ 124.09` and the stored, rounded
`Total Score` is `124.1`. -/
theorem c5_boost_scenario :
    nget c5_boosts "current_fp_boost" 0 + nget c5_row "FP boost" 0 = 15 ∧
    nget c5_row "forge_points" 0 * (1 + 15 / 100) = 115/2 ∧
    nget (apply_boosts_to_base_metrics c5_row c5_context c5_boosts) "forge_points" 0
      = 115/2 + 5 * (100 / (1 + 10/100)) / 100 ∧
    totalScores (calculate_direct_weighted_efficiency [c5_row] c5_weights c5_context
      (some c5_boosts))
      = [round1 (2 * (115/2 + 5 * (100 / (1 + 10/100)) / 100))] ∧
    round1 (2 * (115/2 + 5 * (100 / (1 + 10/100)) / 100)) = 1241/10 :=
  ⟨by decide, by decide, by decide, by decide, by decide⟩

/-- C1 counterexample: no table or scoring input makes the legacy entry
point (`calculate_weighted_efficiency`) return anything other than the direct
weighted-sum result — it always delegates — and, at a concrete two-row
table, the min-max normalization algorithm described by the spec would
produce different scores (`[0, 1000]`) from the ones the legacy entry point
actually returns (`[50, 100]`), so the legacy entry point does not perform
the min-max algorithm. -/
theorem c1_counterexample :
    (¬ ∃ (df : List NRow) (w : NRow) (es : List (String × List (String × ℚ × ℚ)))
        (dfo : List NRow) (era lang : String) (ctx : Option NRow) (ub : NRow)
        (out : List NRow),
        calculate_weighted_efficiency df w es dfo era lang ctx (some ub) = .ok out ∧
        out ≠ calculate_direct_weighted_efficiency df w (ctx.getD USER_CONTEXT_default)
          (some ub)) ∧
    (calculate_weighted_efficiency c1_df c1_weights c1_stats c1_df "Bronze Age" "en"
      (some []) (some [])).map totalScores = .ok [50, 100] ∧
    totalScores (spec_minmax_weighted_efficiency c1_df c1_weights c1_stats "Bronze Age")
      = [0, 1000] ∧
    ([50, 100] : List ℚ) ≠ [0, 1000] := by
  refine ⟨?_, by rfl, by decide, by decide⟩
  rintro ⟨df, w, es, dfo, era, lang, ctx, ub, out, hok, hne⟩
  rw [show calculate_weighted_efficiency df w es dfo era lang ctx (some ub)
      = .ok (calculate_direct_weighted_efficiency df w (ctx.getD USER_CONTEXT_default)
        (some ub)) from rfl] at hok
  injection hok with h
  exact hne h.symm

/-- C1 (amended): the code exposes two entry points, but the legacy one
(`calculate_weighted_efficiency`) performs no min-max normalization: it
delegates to `calculate_direct_weighted_efficiency` (with the context
defaulted from `USER_CONTEXT_FIELDS` when not supplied), and when no boosts
are supplied it raises (`from config import USER_BOOST_FIELDS` — a name
`config.py` does not define). -/
theorem c1_legacy_delegates (df : List NRow) (w : NRow)
    (es : List (String × List (String × ℚ × ℚ))) (dfo : List NRow)
    (era lang : String) (ctx : Option NRow) (ub : NRow) :
    calculate_weighted_efficiency df w es dfo era lang ctx (some ub)
      = .ok (calculate_direct_weighted_efficiency df w (ctx.getD USER_CONTEXT_default)
        (some ub)) ∧
    calculate_weighted_efficiency df w es dfo era lang ctx none = .error () :=
  ⟨rfl, rfl⟩

/-- C7: when every user weight is 0, the direct weighted-sum scoring writes
`Total Score = 0` and `Weighted Efficiency = 0` on every row, whatever the
context and boosts are (the per-row loop is skipped). -/
theorem c7_zero_weights (df : List NRow) (user_weights user_context : NRow)
    (user_boosts : Option NRow) (h : ∀ p ∈ user_weights, p.2 = 0) :
    ∀ r ∈ calculate_direct_weighted_efficiency df user_weights user_context user_boosts,
      nget r "Total Score" 0 = 0 ∧ nget r "Weighted Efficiency" 0 = 0 := by
  intro r hr
  unfold calculate_direct_weighted_efficiency at hr
  by_cases hdf : df.isEmpty
  · rw [if_pos hdf] at hr
    rw [List.isEmpty_iff.mp hdf] at hr
    simp at hr
  · rw [if_neg hdf] at hr
    have hw : user_weights.any (fun p => p.2 > 0) = false := by
      rw [List.any_eq_false]
      intro p hp
      simp [h p hp]
    simp only [hw, Bool.not_false, if_pos] at hr
    obtain ⟨r0, _, rfl⟩ := List.mem_map.mp hr
    refine ⟨?_, ?_⟩
    · rw [nget_nset_ne (nset r0 "Total Score" 0) "Weighted Efficiency" "Total Score" 0 0
        (by decide), nget_nset_self]
    · rw [nget_nset_self]

/-- C7 witness. -/
theorem c7_zero_weights_witness :
    (∀ p ∈ ([("forge_points", 0)] : NRow), p.2 = 0) ∧
    ∀ r ∈ calculate_direct_weighted_efficiency
        [[("forge_points", 3), ("Nbr of squares (Avg)", 4)]]
        [("forge_points", 0)] [("fp_daily_production", 7)]
        (some [("current_fp_boost", 5)]),
      nget r "Total Score" 0 = 0 ∧ nget r "Weighted Efficiency" 0 = 0 :=
  ⟨by decide, c7_zero_weights _ _ _ _ (by decide)⟩

/-- C10: the direct weighted-sum scoring only adds or overwrites the
`Total Score` and `Weighted Efficiency` columns; dropping those two columns
from its output gives back exactly the input table (all other columns, in
order, are untouched — the boost-enhanced values live on a per-row copy). -/
theorem c10_frame_property (df : List NRow) (user_weights user_context : NRow)
    (user_boosts : Option NRow) :
    (calculate_direct_weighted_efficiency df user_weights user_context user_boosts).map
        dropScoreCols
      = df.map dropScoreCols := by
  unfold calculate_direct_weighted_efficiency
  by_cases hdf : df.isEmpty
  · rw [if_pos hdf]
  · rw [if_neg hdf]
    have hinit : ∀ r : NRow,
        dropScoreCols (nset (nset r "Total Score" 0) "Weighted Efficiency" 0)
          = dropScoreCols r := by
      intro r
      rw [dropScoreCols_nset _ _ _ (Or.inr rfl), dropScoreCols_nset _ _ _ (Or.inl rfl)]
    have hscore : ∀ (w c b r : NRow), dropScoreCols (scoreRow w c b r) = dropScoreCols r := by
      intro w c b r
      unfold scoreRow
      dsimp only
      split <;>
        rw [dropScoreCols_nset _ _ _ (Or.inr rfl), dropScoreCols_nset _ _ _ (Or.inl rfl)]
    dsimp only
    split
    · rw [List.map_map]
      exact List.map_congr_left (fun r _ => hinit r)
    · rw [List.map_map, List.map_map]
      exact List.map_congr_left (fun r _ => (hscore _ _ _ _).trans (hinit r))

/-- C3: a component map whose era component and shared (`AllAge`) component
both carry a population value. -/
def popComps (eraPop allPop : ℚ) : J :=
  .obj [("BronzeAge", .obj [("staticResources", .obj [("resources", .obj
           [("resources", .obj [("population", .num eraPop)])])])]),
        ("AllAge", .obj [("staticResources", .obj [("resources", .obj
           [("resources", .obj [("population", .num allPop)])])])])]

/-- C3 counterexample fixture: era population 5 and happiness 3,
shared (`AllAge`) population 7. -/
def c3_comps : J :=
  .obj [("BronzeAge", .obj
          [("staticResources", .obj [("resources", .obj
             [("resources", .obj [("population", .num 5)])])]),
           ("happiness", .obj [("provided", .num 3)])]),
        ("AllAge", .obj [("staticResources", .obj [("resources", .obj
           [("resources", .obj [("population", .num 7)])])])])]

/-- C3 counterexample: with era-specific population 5 and shared (`AllAge`)
population 7 both non-zero, the parsed population is 7 — the shared
component's value, not the era-specific one the claim promises. -/
theorem c3_counterexample :
    get_pop_happiness c3_comps "BronzeAge" = .ok (J.num 7, J.num 3) ∧
    J.num 7 ≠ J.num 5 :=
  ⟨rfl, by intro h; injection h with h'; exact absurd h' (by norm_num)⟩

/-- C3 (amended): `_get_pop_happiness` merges the era component first and the
shared `'AllAge'` component second, keeping any non-zero value — so a
non-zero era value is used only while the shared value is zero (or absent);
when both are non-zero, the shared component's value wins. -/
theorem c3_shared_component_wins (a b : ℚ) :
    get_pop_happiness (popComps a b) "BronzeAge"
      = .ok ((if b ≠ 0 then J.num b else J.num a), J.num 0) := by
  rcases eq_or_ne b 0 with hb | hb <;> rcases eq_or_ne a 0 with ha | ha
  · subst ha; subst hb; rfl
  · subst hb
    simp [get_pop_happiness, popComps, J.getE, alook, J.truthy, pyNeZero, ha,
      Bind.bind, Except.bind, pure, Except.pure]
  · subst ha
    simp [get_pop_happiness, popComps, J.getE, alook, J.truthy, pyNeZero, hb,
      Bind.bind, Except.bind, pure, Except.pure]
  · simp [get_pop_happiness, popComps, J.getE, alook, J.truthy, pyNeZero, ha, hb,
      Bind.bind, Except.bind, pure, Except.pure]

/-- C4 counterexample fixture: a deterministic `genericReward` production
option whose looked-up reward has the unrecognized type `"blueprint"`
(name `"BP"`, amount 3). -/
def c4_comps : J :=
  .obj [("BronzeAge", .obj
          [("production", .obj [("options", .arr [.obj [("products", .arr
             [.obj [("type", .str "genericReward"),
                    ("reward", .obj [("id", .str "R1")])]])]])]),
           ("lookup", .obj [("rewards", .obj
             [("R1", .obj [("type", .str "blueprint"), ("name", .str "BP"),
                           ("amount", .num 3)])])])])]

/-- C4 counterexample: the deterministic `genericReward` branch has no
trailing `else`, so the unrecognized `"blueprint"` reward is dropped without
a trace: `other_items` stays empty (no "BP" label), and no production field
receives anything. -/
theorem c4_counterexample :
    (get_production_data c4_comps "BronzeAge" (.str "B")).toOption.map Production.other_items
      = some [] ∧
    (get_production_data c4_comps "BronzeAge" (.str "B")).toOption.map
        Production.forgepoint_package
      = some 0 ∧
    (get_production_data c4_comps "BronzeAge" (.str "B")).toOption.map Production.coins
      = some 0 ∧
    (([] : List String) ≠ ["BP"]) :=
  ⟨by decide, by decide, by decide, by decide⟩

/-- C4 fixture: a random/weighted production option with drop chance `dc`
whose inner `genericReward` has unrecognized lookup type `t`; the product
dict carries the display name `"Mystery"`. -/
def c4_random_comps (t : String) (dc : ℚ) : J :=
  .obj [("BronzeAge", .obj
          [("production", .obj [("options", .arr [.obj [("products", .arr
             [.obj [("type", .str "random"), ("products", .arr
                [.obj [("dropChance", .num dc),
                       ("product", .obj
                         [("type", .str "genericReward"), ("name", .str "Mystery"),
                          ("reward", .obj [("id", .str "R2")])])]])]])]])]),
           ("lookup", .obj [("rewards", .obj
             [("R2", .obj [("type", .str t), ("name", .str "BP2"),
                           ("amount", .num 3)])])])])]

set_option maxHeartbeats 2000000 in
/-- C4 (amended): only the random/weighted branch records unrecognized
reward kinds: for every unrecognized lookup type `t` and non-zero drop
chance `dc`, the product is appended to `other_items` as
`"<name> (<percent>%)"`.  (The deterministic branch, by contrast, drops them
silently — see the counterexample.) -/
theorem c4_random_unrecognized_labelled (t : String) (dc : ℚ)
    (ht : t ∉ (["consumable", "set", "good", "special_goods", "guild_goods",
                "unit", "chest"] : List String))
    (hdc : dc ≠ 0) :
    (get_production_data (c4_random_comps t dc) "BronzeAge" (.str "B")).map
        Production.other_items
      = .ok [pctLabel "Mystery" dc] := by
  simp only [List.mem_cons, List.mem_singleton, not_or] at ht
  obtain ⟨h1, h2, h3, h4, h5, h6, h7, _⟩ := ht
  have e1 : (J.str t).eqStr "consumable" = false := by simp [J.eqStr, h1]
  have e2 : (J.str t).eqStr "set" = false := by simp [J.eqStr, h2]
  have e3 : (J.str t).eqStr "good" = false := by simp [J.eqStr, h3]
  have e4 : (J.str t).eqStr "special_goods" = false := by simp [J.eqStr, h4]
  have e5 : (J.str t).eqStr "guild_goods" = false := by simp [J.eqStr, h5]
  have e6 : (J.str t).eqStr "unit" = false := by simp [J.eqStr, h6]
  have e7 : (J.str t).eqStr "chest" = false := by simp [J.eqStr, h7]
  simp [get_production_data, c4_random_comps, processOptionE, J.getE, J.getN,
    J.eqStr, alook, J.truthy, jiterE, lookupByJ, rewardAmountE, pyNumE, forgepointBranch,
    pyInJE, pyInStr, hasSubL, startsL, hdc, e1, e2, e3, e4, e5, e6, e7,
    h1, h2, h3, h4, h5, h6, h7,
    Bind.bind, Except.bind, pure, Except.pure, Except.map, finalizeProduction,
    pySortedDedup, pySort, insSorted, List.eraseDups, List.eraseDups.loop, pastEras,
    List.contains, List.elem, pyIndex0E, consumableBranch, setBranch, goodsBranch,
    unitScanE, chestScanE, appendOtherRaw, pyStrE, pyDivE, pctLabel,
    Production.roundAll, J.pystr]

/-- C4 witness. -/
theorem c4_random_unrecognized_labelled_witness :
    ("blueprint" ∉ (["consumable", "set", "good", "special_goods", "guild_goods",
       "unit", "chest"] : List String)) ∧
    ((3/10 : ℚ) ≠ 0) ∧
    (get_production_data (c4_random_comps "blueprint" (3/10)) "BronzeAge" (.str "B")).map
        Production.other_items
      = .ok [pctLabel "Mystery" (3/10)] :=
  ⟨by decide, by decide,
   c4_random_unrecognized_labelled "blueprint" (3/10) (by decide) (by decide)⟩

/-- C2 fixture: a fully well-formed building entry. -/
def c2_good_building : J :=
  .obj [("id", .str "W_Good1"), ("name", .str "Good"),
        ("components", .obj
          [("AllAge", .obj [("placement", .obj [("size", .obj
              [("x", .num 2), ("y", .num 3)])])]),
           ("BronzeAge", .obj [])])]

/-- C2 fixture: a malformed entry with no `id` key
(`building_entry.get('id')` returns `None`, and `None.startswith` raises). -/
def c2_no_id_building : J := .obj [("name", .str "Bad")]

/-- C2 fixture: an entry without a `components` dict (skipped with a warning). -/
def c2_no_components_building : J := .obj [("id", .str "W_NoComp"), ("name", .str "NC")]

/-- C2 fixture: an entry whose only era sub-block is malformed (a bare
string), so that era fails and is skipped. -/
def c2_bad_era_building : J :=
  .obj [("id", .str "W_BadEra"), ("name", .str "BE"),
        ("components", .obj [("BronzeAge", .str "x")])]

/-- C2: the loader survives a missing-components entry and a failing era
sub-block (the well-formed building still parses), but one entry with a
missing `id` makes the whole load raise — `None.startswith(('W_'))` throws
`AttributeError`, the function-level handler re-raises, and no records are
returned for any building, well-formed or not, regardless of position. -/
theorem c2_missing_id_aborts_load :
    (loadData [c2_good_building] [] []).toOption.map (fun rs => rs.map Rec.id)
      = some ["W_Good1"] ∧
    (loadData [c2_bad_era_building, c2_no_components_building, c2_good_building]
        [] []).toOption.map (fun rs => rs.map Rec.id) = some ["W_Good1"] ∧
    (loadData [c2_good_building, c2_no_id_building] [] []).toOption.map
        (fun rs => rs.map Rec.id) = none ∧
    (loadData [c2_no_id_building, c2_good_building] [] []).toOption.map
        (fun rs => rs.map Rec.id) = none :=
  ⟨by decide, by decide, by decide, by decide⟩

/-- C6 fixture: a building whose components have an era but no `AllAge`
placement at all — parsed with `width = height = 0`, no road. -/
def c6_zero_building : J :=
  .obj [("id", .str "W_Zero"), ("components", .obj [("BronzeAge", .obj [])])]

/-- C6 counterexample: the parser produces a record (here from a building
with no placement data) with `width = height = 0`, `squares_avg = 0` and
`requires_road = false`; for it `squares_avg = width*height +
min(width,height)/2` holds trivially, yet `requires_road` is false — so the
claim's "if and only if" fails on a parsed record. -/
theorem c6_counterexample :
    (loadData [c6_zero_building] [] []).toOption.map
        (fun rs => rs.map (fun r => (r.x, r.y, r.squares_avg, r.road)))
      = some [(0, 0, 0, false)] ∧
    ((0 : ℚ) = 0 * 0 + min (0:ℚ) 0 / 2) ∧
    ¬(((0 : ℚ) = 0 * 0 + min (0:ℚ) 0 / 2) ↔ (false = true)) :=
  ⟨by decide, by decide, by decide⟩

/-- C6 (amended): for every result of `_calculate_size_data` with
non-negative width and height, `squares_avg ≥ width*height`; it equals
`width*height + min(width,height)/2` when a road is required and exactly
`width*height` otherwise; the claim's "equals ... iff requires_road" holds
whenever `min(width,height) > 0` (it fails only for degenerate zero-sized
footprints, as the counterexample shows). -/
theorem c6_footprint (components : J) (w h : ℚ) (s : String) (sq : ℚ) (road : Bool)
    (hres : calculate_size_data components = .ok (w, h, s, sq, road))
    (hw : 0 ≤ w) (hh : 0 ≤ h) :
    w * h ≤ sq ∧
    (road = true → sq = w * h + min w h / 2) ∧
    (road = false → sq = w * h) ∧
    (0 < min w h → (sq = w * h + min w h / 2 ↔ road = true)) := by
  unfold calculate_size_data at hres
  simp only [Bind.bind] at hres
  cases hA : components.getE "AllAge" (.obj []) with
  | error e => rw [hA] at hres; simp [Except.bind] at hres
  | ok allAge =>
  rw [hA] at hres
  simp only [Except.bind] at hres
  cases hB : allAge.getE "placement" (.obj []) with
  | error e => rw [hB] at hres; simp [Except.bind] at hres
  | ok placement =>
  rw [hB] at hres
  simp only [Except.bind] at hres
  cases hC : placement.getE "size" (.obj []) with
  | error e => rw [hC] at hres; simp [Except.bind] at hres
  | ok placement_size =>
  rw [hC] at hres
  simp only [Except.bind] at hres
  cases hD : placement_size.getE "y" (.num 0) with
  | error e => rw [hD] at hres; simp [Except.bind] at hres
  | ok heightJ =>
  rw [hD] at hres
  simp only [Except.bind] at hres
  cases hE : placement_size.getE "x" (.num 0) with
  | error e => rw [hE] at hres; simp [Except.bind] at hres
  | ok widthJ =>
  rw [hE] at hres
  simp only [Except.bind] at hres
  cases hG : pyInJE "streetConnectionRequirement" allAge with
  | error e => rw [hG] at hres; simp [Except.bind] at hres
  | ok needs_road =>
  rw [hG] at hres
  simp only [Except.bind] at hres
  cases hH : pyNumE heightJ with
  | error e => rw [hH] at hres; simp [Except.bind] at hres
  | ok height =>
  rw [hH] at hres
  simp only [Except.bind] at hres
  cases hI : pyNumE widthJ with
  | error e => rw [hI] at hres; simp [Except.bind] at hres
  | ok width =>
  rw [hI] at hres
  simp only [Except.bind, pure, Except.pure, Except.ok.injEq, Prod.mk.injEq] at hres
  obtain ⟨rfl, rfl, rfl, rfl, rfl⟩ := hres
  have hmin : (0 : ℚ) ≤ min width height := le_min hw hh
  cases needs_road with
  | false =>
    rw [if_neg (by decide : ¬(false = true))]
    refine ⟨by rw [mul_comm width height], ?_, ?_, ?_⟩
    · intro hcon; exact absurd hcon (by decide)
    · intro _; rw [mul_comm width height]
    · intro hpos
      constructor
      · intro heq
        exfalso
        rw [mul_comm height width] at heq
        have hz : width ⊓ height = 0 := by linarith
        rw [hz] at hpos
        exact absurd hpos (by norm_num)
      · intro hcon; exact absurd hcon (by decide)
  | true =>
    rw [if_pos rfl]
    refine ⟨?_, ?_, ?_, ?_⟩
    · rw [mul_comm width height]
      linarith
    · intro _; rw [mul_comm width height]
    · intro hcon; exact absurd hcon (by decide)
    · intro _
      exact ⟨fun _ => rfl, fun _ => by rw [mul_comm width height]⟩

/-- C6 fixture: a 4×5 building requiring street access. -/
def c6_road_comps : J :=
  .obj [("AllAge", .obj
          [("placement", .obj [("size", .obj [("x", .num 5), ("y", .num 4)])]),
           ("streetConnectionRequirement", .obj [("range", .num 1)])]),
        ("BronzeAge", .obj [])]

/-- C6 witness, exercising E2E scenario B: a 4×5 footprint with a required
road gives `squares_avg = 20 + 2 = 22`. -/
theorem c6_footprint_witness :
    calculate_size_data c6_road_comps = .ok (5, 4, "4x5", 22, true) ∧
    ((0:ℚ) ≤ 5 ∧ (0:ℚ) ≤ 4) ∧
    ((5:ℚ) * 4 ≤ 22 ∧
     (true = true → (22:ℚ) = 5 * 4 + min (5:ℚ) 4 / 2) ∧
     (true = false → (22:ℚ) = 5 * 4) ∧
     (0 < min (5:ℚ) 4 → ((22:ℚ) = 5 * 4 + min (5:ℚ) 4 / 2 ↔ true = true))) := by
  have hres : calculate_size_data c6_road_comps = .ok (5, 4, "4x5", 22, true) := by
    have : (calculate_size_data c6_road_comps).toOption = some (5, 4, "4x5", 22, true) := by
      decide
    cases hx : calculate_size_data c6_road_comps with
    | error e => rw [hx] at this; simp [Except.toOption] at this
    | ok v => rw [hx] at this; simp [Except.toOption] at this; rw [this]
  exact ⟨hres, ⟨by norm_num, by norm_num⟩,
    c6_footprint c6_road_comps 5 4 "4x5" 22 true hres (by norm_num) (by norm_num)⟩

/-! ## Filter-engine lemmas (for the claims about `_apply_filters`) -/

/-- The per-filter, post-exclusion row mask (what one FilterSpec matches,
on any table). -/
def cfgMask (column : String) (cfg : FilterConfig)
    (r : Nat × List (String × Cell)) : Bool :=
  match cfg with
  | .op operator value1 value2 excl =>
    let m := (numCmpMask operator value1 value2 (alook r.2 column)).toOption.getD true
    if excl then !m else m
  | .minmax lo hi excl =>
    let m := minmaxMask lo hi (alook r.2 column)
    if excl then !m else m
  | .isinF values _ excl =>
    let m := isinMask values (alook r.2 column)
    if excl then !m else m
  | .single value operation excl =>
    let m := singleMask value operation (alook r.2 column)
    if excl then !m else m

/-- A well-formed FilterSpec as the UI produces them: `between` always
carries its second operand, and a categorical filter's operation is
`"isin"`. -/
def specFilter : FilterConfig → Prop
  | .op operator _ value2 _ => operator = "between" → value2 ≠ none
  | .isinF _ operation _ => operation = "isin"
  | _ => True

theorem py_bind_ok {α β : Type} (v : α) (f : α → Py β) :
    ((Except.ok v : Py α) >>= f) = f v := rfl

theorem py_bind_error {α β : Type} (e : Unit) (f : α → Py β) :
    ((Except.error e : Py α) >>= f) = .error e := rfl

theorem py_pure {α : Type} (v : α) : (pure v : Py α) = .ok v := rfl

theorem numCmpMask_isOk (operator : String) (v1 : ℚ) (v2 : Option ℚ) (c : Option Cell)
    (hwf : operator = "between" → v2 ≠ none) :
    ∃ b, numCmpMask operator v1 v2 c = .ok b := by
  unfold numCmpMask
  by_cases hb : operator = "between"
  · rw [if_pos hb]
    cases v2 with
    | none => exact absurd rfl (hwf hb)
    | some b => exact ⟨_, rfl⟩
  · rw [if_neg hb]
    split_ifs <;> exact ⟨_, rfl⟩

theorem pyFilterM_ok {α : Type} (body : α → Py Bool) (g : α → Bool)
    (hb : ∀ r, body r = .ok (g r)) :
    ∀ rows : List α, pyFilterM body rows = .ok (rows.filter g) := by
  intro rows
  induction rows with
  | nil => rfl
  | cons x xs ih =>
    simp only [pyFilterM, hb x, ih, py_bind_ok, py_pure, List.filter_cons]

theorem andStep_ok (column : String) (cfg : FilterConfig)
    (rows : List (Nat × List (String × Cell))) (hwf : specFilter cfg) :
    andStep column cfg rows = .ok (rows.filter (cfgMask column cfg)) := by
  cases cfg with
  | op operator value1 value2 excl =>
    unfold andStep
    exact pyFilterM_ok _ _ (fun r => by
      obtain ⟨b, hbb⟩ := numCmpMask_isOk operator value1 value2 (alook r.2 column) hwf
      simp only [hbb, py_bind_ok, py_pure, cfgMask, Except.toOption, Option.getD]) rows
  | minmax lo hi excl => rfl
  | isinF values operation excl =>
    have ho : operation = "isin" := hwf
    subst ho
    unfold andStep
    dsimp only
    rw [if_pos rfl]
    rfl
  | single value operation excl => rfl

theorem orStep_ok (column : String) (cfg : FilterConfig)
    (stale : Option ((Nat × List (String × Cell)) → Bool)) (hwf : specFilter cfg) :
    orStep column cfg stale = .ok (cfgMask column cfg) := by
  cases cfg with
  | op operator value1 value2 excl =>
    unfold orStep
    dsimp only
    rw [if_neg (by rintro ⟨h1, h2⟩; exact (hwf h1) h2)]
    rfl
  | minmax lo hi excl => rfl
  | isinF values operation excl =>
    have ho : operation = "isin" := hwf
    subst ho
    unfold orStep
    dsimp only
    rw [if_pos rfl]
    rfl
  | single value operation excl => rfl

theorem contains_iff_mem (l : List String) (c : String) :
    l.contains c = true ↔ c ∈ l := by
  simp [List.contains, List.elem_iff]

theorem not_skip_of_contains (df_cols : List String) (c : String)
    (h : df_cols.contains c = true) : ¬((!df_cols.contains c) = true) := by
  rw [h]; decide

theorem skip_of_not_contains (df_cols : List String) (c : String)
    (h : df_cols.contains c = false) : (!df_cols.contains c) = true := by
  rw [h]; decide

theorem applyAND_nil (df_cols : List String)
    (rows : List (Nat × List (String × Cell))) :
    applyAND df_cols [] rows = .ok rows := rfl

theorem applyAND_cons_present (df_cols : List String) (column : String)
    (cfg : FilterConfig) (rest : List (String × FilterConfig))
    (rows : List (Nat × List (String × Cell)))
    (hcol : df_cols.contains column = true) (hwf : specFilter cfg) :
    applyAND df_cols ((column, cfg) :: rest) rows
      = applyAND df_cols rest (rows.filter (cfgMask column cfg)) := by
  rw [applyAND, if_neg (not_skip_of_contains df_cols column hcol),
    andStep_ok column cfg rows hwf, py_bind_ok]

theorem applyAND_cons_absent (df_cols : List String) (column : String)
    (cfg : FilterConfig) (rest : List (String × FilterConfig))
    (rows : List (Nat × List (String × Cell)))
    (hcol : df_cols.contains column = false) :
    applyAND df_cols ((column, cfg) :: rest) rows = applyAND df_cols rest rows := by
  rw [applyAND, if_pos (skip_of_not_contains df_cols column hcol)]

theorem applyORGo_nil (df_cols : List String)
    (combined : (Nat × List (String × Cell)) → Bool)
    (stale : Option ((Nat × List (String × Cell)) → Bool)) :
    applyORGo df_cols [] combined stale = .ok combined := rfl

theorem applyORGo_cons_present (df_cols : List String) (column : String)
    (cfg : FilterConfig) (rest : List (String × FilterConfig))
    (combined : (Nat × List (String × Cell)) → Bool)
    (stale : Option ((Nat × List (String × Cell)) → Bool))
    (hcol : df_cols.contains column = true) (hwf : specFilter cfg) :
    applyORGo df_cols ((column, cfg) :: rest) combined stale
      = applyORGo df_cols rest (fun r => combined r || cfgMask column cfg r)
          (some (cfgMask column cfg)) := by
  rw [applyORGo, if_neg (not_skip_of_contains df_cols column hcol),
    orStep_ok column cfg stale hwf, py_bind_ok]

theorem applyORGo_cons_absent (df_cols : List String) (column : String)
    (cfg : FilterConfig) (rest : List (String × FilterConfig))
    (combined : (Nat × List (String × Cell)) → Bool)
    (stale : Option ((Nat × List (String × Cell)) → Bool))
    (hcol : df_cols.contains column = false) :
    applyORGo df_cols ((column, cfg) :: rest) combined stale
      = applyORGo df_cols rest combined stale := by
  rw [applyORGo, if_pos (skip_of_not_contains df_cols column hcol)]

theorem applyAND_skip (df_cols : List String) (c : String) (cfg : FilterConfig)
    (hc : df_cols.contains c = false) :
    ∀ (fs1 fs2 : List (String × FilterConfig))
      (rows : List (Nat × List (String × Cell))),
      applyAND df_cols (fs1 ++ (c, cfg) :: fs2) rows
        = applyAND df_cols (fs1 ++ fs2) rows := by
  intro fs1
  induction fs1 with
  | nil =>
    intro fs2 rows
    simpa using applyAND_cons_absent df_cols c cfg fs2 rows hc
  | cons p fs1 ih =>
    obtain ⟨col, cfg'⟩ := p
    intro fs2 rows
    rw [List.cons_append, List.cons_append]
    by_cases hcol : df_cols.contains col = true
    · rw [applyAND, applyAND,
        if_neg (not_skip_of_contains df_cols col hcol),
        if_neg (not_skip_of_contains df_cols col hcol)]
      cases hres : andStep col cfg' rows with
      | error e => rw [py_bind_error, py_bind_error]
      | ok rows' => rw [py_bind_ok, py_bind_ok]; exact ih fs2 rows'
    · have hcol' : df_cols.contains col = false := by
        simpa using hcol
      rw [applyAND_cons_absent df_cols col cfg' _ rows hcol',
        applyAND_cons_absent df_cols col cfg' _ rows hcol']
      exact ih fs2 rows

theorem applyORGo_skip (df_cols : List String) (c : String) (cfg : FilterConfig)
    (hc : df_cols.contains c = false) :
    ∀ (fs1 fs2 : List (String × FilterConfig))
      (combined : (Nat × List (String × Cell)) → Bool)
      (stale : Option ((Nat × List (String × Cell)) → Bool)),
      applyORGo df_cols (fs1 ++ (c, cfg) :: fs2) combined stale
        = applyORGo df_cols (fs1 ++ fs2) combined stale := by
  intro fs1
  induction fs1 with
  | nil =>
    intro fs2 combined stale
    simpa using applyORGo_cons_absent df_cols c cfg fs2 combined stale hc
  | cons p fs1 ih =>
    obtain ⟨col, cfg'⟩ := p
    intro fs2 combined stale
    rw [List.cons_append, List.cons_append]
    by_cases hcol : df_cols.contains col = true
    · rw [applyORGo, applyORGo,
        if_neg (not_skip_of_contains df_cols col hcol),
        if_neg (not_skip_of_contains df_cols col hcol)]
      cases hres : orStep col cfg' stale with
      | error e => rw [py_bind_error, py_bind_error]
      | ok m => rw [py_bind_ok, py_bind_ok]; exact ih fs2 _ _
    · have hcol' : df_cols.contains col = false := by
        simpa using hcol
      rw [applyORGo_cons_absent df_cols col cfg' _ combined stale hcol',
        applyORGo_cons_absent df_cols col cfg' _ combined stale hcol']
      exact ih fs2 combined stale

theorem apply_filters_AND_eq (T : FTable) (fs : List (String × FilterConfig))
    (h : fs ≠ []) :
    apply_filters T fs "AND"
      = (applyAND T.cols fs T.rows >>= fun rows => pure ⟨T.cols, rows⟩) := by
  cases fs with
  | nil => exact absurd rfl h
  | cons f fs' => rfl

theorem apply_filters_OR_eq (T : FTable) (fs : List (String × FilterConfig))
    (mode : String) (h : fs ≠ []) (hmode : mode ≠ "AND") :
    apply_filters T fs mode
      = (applyORGo T.cols fs (fun _ => false) none >>= fun combined =>
          pure ⟨T.cols, T.rows.filter combined⟩) := by
  cases fs with
  | nil => exact absurd rfl h
  | cons f fs' =>
    unfold apply_filters
    rw [if_neg (by simp), if_neg hmode]

theorem apply_filters_one_AND (T : FTable) (c : String) (f : FilterConfig)
    (hc : c ∈ T.cols) (hwf : specFilter f) :
    apply_filters T [(c, f)] "AND" = .ok ⟨T.cols, T.rows.filter (cfgMask c f)⟩ := by
  unfold apply_filters
  rw [if_neg (by simp), if_pos rfl,
    applyAND_cons_present T.cols c f [] T.rows ((contains_iff_mem _ _).mpr hc) hwf,
    applyAND_nil, py_bind_ok, py_pure]

theorem apply_filters_two_AND (T : FTable) (c1 c2 : String) (f1 f2 : FilterConfig)
    (hc1 : c1 ∈ T.cols) (hc2 : c2 ∈ T.cols)
    (hwf1 : specFilter f1) (hwf2 : specFilter f2) :
    apply_filters T [(c1, f1), (c2, f2)] "AND"
      = .ok ⟨T.cols, (T.rows.filter (cfgMask c1 f1)).filter (cfgMask c2 f2)⟩ := by
  unfold apply_filters
  rw [if_neg (by simp), if_pos rfl,
    applyAND_cons_present T.cols c1 f1 [(c2, f2)] T.rows
      ((contains_iff_mem _ _).mpr hc1) hwf1,
    applyAND_cons_present T.cols c2 f2 [] _ ((contains_iff_mem _ _).mpr hc2) hwf2,
    applyAND_nil, py_bind_ok, py_pure]

theorem apply_filters_two_OR (T : FTable) (c1 c2 : String) (f1 f2 : FilterConfig)
    (hc1 : c1 ∈ T.cols) (hc2 : c2 ∈ T.cols)
    (hwf1 : specFilter f1) (hwf2 : specFilter f2) :
    apply_filters T [(c1, f1), (c2, f2)] "OR"
      = .ok ⟨T.cols, T.rows.filter (fun r => cfgMask c1 f1 r || cfgMask c2 f2 r)⟩ := by
  unfold apply_filters
  rw [if_neg (by simp), if_neg (by decide),
    applyORGo_cons_present T.cols c1 f1 [(c2, f2)] _ _
      ((contains_iff_mem _ _).mpr hc1) hwf1,
    applyORGo_cons_present T.cols c2 f2 [] _ _ ((contains_iff_mem _ _).mpr hc2) hwf2,
    applyORGo_nil, py_bind_ok, py_pure]
  simp only [Bool.false_or]

/-! ## C8 and C9: the filter-combination algebra -/

/-- A three-row fixture table for the filter-algebra properties. -/
def c8_table : FTable :=
  ⟨["A", "B"],
   [(0, [("A", Cell.num 1), ("B", Cell.str "x")]),
    (1, [("A", Cell.num 3), ("B", Cell.str "y")]),
    (2, [("A", Cell.num 10), ("B", Cell.str "x")])]⟩

/-- C8: on a table with unique row labels, for two well-formed FilterSpecs
over distinct columns both present in the table, `_apply_filters` in AND
mode yields exactly the row-id intersection of the two single-filter AND
applications, and OR mode yields their row-id union; each filter's
`exclude` flag is folded into its own mask before the combination. -/
theorem c8_and_intersects_or_unites (T : FTable) (c1 c2 : String)
    (f1 f2 : FilterConfig)
    (hne : c1 ≠ c2) (hc1 : c1 ∈ T.cols) (hc2 : c2 ∈ T.cols)
    (hwf1 : specFilter f1) (hwf2 : specFilter f2)
    (hnd : (T.rows.map Prod.fst).Nodup) :
    ∃ tboth t1 t2 tor,
      apply_filters T [(c1, f1), (c2, f2)] "AND" = .ok tboth ∧
      apply_filters T [(c1, f1)] "AND" = .ok t1 ∧
      apply_filters T [(c2, f2)] "AND" = .ok t2 ∧
      apply_filters T [(c1, f1), (c2, f2)] "OR" = .ok tor ∧
      rowIdSet tboth = rowIdSet t1 ∩ rowIdSet t2 ∧
      rowIdSet tor = rowIdSet t1 ∪ rowIdSet t2 := by
  refine ⟨_, _, _, _,
    apply_filters_two_AND T c1 c2 f1 f2 hc1 hc2 hwf1 hwf2,
    apply_filters_one_AND T c1 f1 hc1 hwf1,
    apply_filters_one_AND T c2 f2 hc2 hwf2,
    apply_filters_two_OR T c1 c2 f1 f2 hc1 hc2 hwf1 hwf2, ?_, ?_⟩
  · ext i
    simp only [rowIdSet, Set.mem_inter_iff, Set.mem_setOf_eq, List.mem_map,
      List.mem_filter]
    constructor
    · rintro ⟨r, ⟨⟨hr, hm1⟩, hm2⟩, hi⟩
      exact ⟨⟨r, ⟨hr, hm1⟩, hi⟩, ⟨r, ⟨hr, hm2⟩, hi⟩⟩
    · rintro ⟨⟨r, ⟨hr, hm1⟩, hi⟩, ⟨r2, ⟨hr2, hm2⟩, hi2⟩⟩
      have hrr : r = r2 :=
        List.inj_on_of_nodup_map hnd hr hr2 (hi.trans hi2.symm)
      subst hrr
      exact ⟨r, ⟨⟨hr, hm1⟩, hm2⟩, hi⟩
  · ext i
    simp only [rowIdSet, Set.mem_union, Set.mem_setOf_eq, List.mem_map,
      List.mem_filter, Bool.or_eq_true]
    constructor
    · rintro ⟨r, ⟨hr, hm1 | hm2⟩, hi⟩
      · exact Or.inl ⟨r, ⟨hr, hm1⟩, hi⟩
      · exact Or.inr ⟨r, ⟨hr, hm2⟩, hi⟩
    · rintro (⟨r, ⟨hr, hm⟩, hi⟩ | ⟨r, ⟨hr, hm⟩, hi⟩)
      · exact ⟨r, ⟨hr, Or.inl hm⟩, hi⟩
      · exact ⟨r, ⟨hr, Or.inr hm⟩, hi⟩

/-- C8, instantiated: a `between` filter on column A and an `isin` filter
on column B of the three-row fixture table. -/
theorem c8_and_intersects_or_unites_witness :
    (("A" : String) ≠ "B" ∧ "A" ∈ c8_table.cols ∧ "B" ∈ c8_table.cols ∧
     specFilter (FilterConfig.op "between" 2 (some 10) false) ∧
     specFilter (FilterConfig.isinF ["x"] "isin" false) ∧
     (c8_table.rows.map Prod.fst).Nodup) ∧
    (∃ tboth t1 t2 tor,
      apply_filters c8_table
          [("A", FilterConfig.op "between" 2 (some 10) false),
           ("B", FilterConfig.isinF ["x"] "isin" false)] "AND" = .ok tboth ∧
      apply_filters c8_table
          [("A", FilterConfig.op "between" 2 (some 10) false)] "AND" = .ok t1 ∧
      apply_filters c8_table
          [("B", FilterConfig.isinF ["x"] "isin" false)] "AND" = .ok t2 ∧
      apply_filters c8_table
          [("A", FilterConfig.op "between" 2 (some 10) false),
           ("B", FilterConfig.isinF ["x"] "isin" false)] "OR" = .ok tor ∧
      rowIdSet tboth = rowIdSet t1 ∩ rowIdSet t2 ∧
      rowIdSet tor = rowIdSet t1 ∪ rowIdSet t2) :=
  ⟨⟨by decide, by decide, by decide, fun _ h => Option.noConfusion h, rfl,
    by decide⟩,
   c8_and_intersects_or_unites c8_table "A" "B"
     (FilterConfig.op "between" 2 (some 10) false)
     (FilterConfig.isinF ["x"] "isin" false)
     (by decide) (by decide) (by decide)
     (fun _ h => Option.noConfusion h) rfl (by decide)⟩

/-- C9 (corrected): a FilterSpec whose column is absent from the table is
skipped without raising, and the result equals applying the remaining
filters — unconditionally in AND mode, and in OR mode whenever some filter
remains; an empty filter dict returns the table unchanged. -/
theorem c9_absent_column_skipped (T : FTable) (c : String) (cfg : FilterConfig)
    (fs1 fs2 : List (String × FilterConfig)) (mode : String)
    (hc : c ∉ T.cols)
    (hrest : mode = "AND" ∨ fs1 ++ fs2 ≠ []) :
    apply_filters T (fs1 ++ (c, cfg) :: fs2) mode
      = apply_filters T (fs1 ++ fs2) mode ∧
    apply_filters T [] mode = .ok T := by
  have hcc : T.cols.contains c = false := by
    rw [← Bool.not_eq_true]
    simpa [contains_iff_mem] using hc
  refine ⟨?_, rfl⟩
  by_cases hempty : fs1 ++ fs2 = []
  · have hmode : mode = "AND" := hrest.resolve_right (fun h => h hempty)
    subst hmode
    obtain ⟨h1, h2⟩ := List.append_eq_nil.mp hempty
    subst h1
    subst h2
    rw [List.nil_append, List.nil_append,
      apply_filters_AND_eq T [(c, cfg)] (by simp),
      applyAND_cons_absent T.cols c cfg [] T.rows hcc, applyAND_nil,
      py_bind_ok]
    rfl
  · have hne1 : fs1 ++ (c, cfg) :: fs2 ≠ [] := by simp
    by_cases hmode : mode = "AND"
    · subst hmode
      rw [apply_filters_AND_eq T _ hne1, apply_filters_AND_eq T _ hempty,
        applyAND_skip T.cols c cfg hcc fs1 fs2 T.rows]
    · rw [apply_filters_OR_eq T _ mode hne1 hmode,
        apply_filters_OR_eq T _ mode hempty hmode,
        applyORGo_skip T.cols c cfg hcc fs1 fs2 _ _]

/-- C9, instantiated: a filter on an absent column over a one-row table in
AND mode is a no-op, and the empty filter dict returns the table. -/
theorem c9_absent_column_skipped_witness :
    (("ghost" ∉ (⟨["A"], [(0, [("A", Cell.num 1)])]⟩ : FTable).cols) ∧
     ("AND" = "AND" ∨
       ([] : List (String × FilterConfig)) ++ [] ≠ [])) ∧
    (apply_filters ⟨["A"], [(0, [("A", Cell.num 1)])]⟩
        ([] ++ ("ghost", FilterConfig.isinF ["x"] "isin" false) :: []) "AND"
      = apply_filters ⟨["A"], [(0, [("A", Cell.num 1)])]⟩ ([] ++ []) "AND" ∧
     apply_filters ⟨["A"], [(0, [("A", Cell.num 1)])]⟩ [] "AND"
      = .ok ⟨["A"], [(0, [("A", Cell.num 1)])]⟩) :=
  ⟨⟨by decide, Or.inl rfl⟩,
   c9_absent_column_skipped ⟨["A"], [(0, [("A", Cell.num 1)])]⟩ "ghost"
     (FilterConfig.isinF ["x"] "isin" false) [] [] "AND" (by decide)
     (Or.inl rfl)⟩

/-- C9 counterexample: in OR mode, when every filter's column is absent
from the table, the combined mask stays all-`False` and the result is the
EMPTY table — not the unfiltered table that applying the remaining (zero)
filters would give. -/
theorem c9_counterexample :
    apply_filters ⟨["A"], [(0, [("A", Cell.num 1)])]⟩
        [("ghost", FilterConfig.isinF ["x"] "isin" false)] "OR"
      = .ok ⟨["A"], []⟩ ∧
    apply_filters ⟨["A"], [(0, [("A", Cell.num 1)])]⟩ [] "OR"
      = .ok ⟨["A"], [(0, [("A", Cell.num 1)])]⟩ ∧
    (⟨["A"], []⟩ : FTable) ≠ ⟨["A"], [(0, [("A", Cell.num 1)])]⟩ :=
  ⟨rfl, rfl, by decide⟩

end FoE
